import Mathlib

/-!
# SimpleServer: a verification development

A shallow embedding of the four C programs of the repository

* `command_server_tcp.c`  (forking TCP server with the H/C/Q command vocabulary),
* `simple_server_tcp.c`   (forking TCP server),
* `simple_server.c`       (UDP echo, `getaddrinfo` variant),
* `simpler_server.c`      (UDP echo, hard-coded IPv4 variant).

Bytes are natural numbers below 256, buffers are lists of bytes, machine
integers are `Int`.  Every system call is an `Event` of the calling process;
what the operating system answers (return values, received data) is an explicit
input of the embedded function.  Each embedded function takes the point of view
of ONE process: `fork` is an event whose return value in this process is an
input, and a child process starts at the fork with a copy of its parent's
state.
-/

namespace SimpleServer

/-! ## C library pieces used by the programs -/

/-- `#define BUF_SIZE 512`. -/
def BUF_SIZE : Nat := 512

/-- `#define BACKLOG 16`. -/
def BACKLOG : Nat := 16

/-- `EXIT_SUCCESS` of `<stdlib.h>`. -/
def EXIT_SUCCESS : Nat := 0

/-- `EXIT_FAILURE` of `<stdlib.h>`. -/
def EXIT_FAILURE : Nat := 1

/-- The bytes of a C string literal, without its terminating NUL. -/
def cstr (s : String) : List Nat := s.toList.map Char.toNat

/-- `strlen(buf)`: the number of bytes before the first NUL. -/
def strlen (buf : List Nat) : Nat := (buf.takeWhile (fun b => b != 0)).length

/-- `strncpy(dest, src, n)`: the bytes of `src` up to its NUL, at most `n` of
them, then NUL padding up to `n` bytes; the bytes of `dest` from index `n` on
are left as they were.  The result is the new content of `dest`. -/
def strncpy (dest src : List Nat) (n : Nat) : List Nat :=
  let s := (src.takeWhile (fun b => b != 0)).take n
  s ++ List.replicate (n - s.length) 0 ++ dest.drop n

/-- An argument of a `printf`-style call. -/
inductive Arg where
  | int (v : Int)
  | str (s : String)
  /-- A NULL `char *` (what `argv[0]` is when `argc` is 0). -/
  | null
  deriving DecidableEq, Repr

/-- The observable actions of one process, in program order. -/
inductive Event where
  /-- `socket(...)`, with the value it returned. -/
  | socket (ret : Int)
  /-- `bind(fd, ...)` to the given port, with the value it returned. -/
  | bind (fd : Int) (port : Int) (ret : Int)
  /-- `listen(fd, backlog)`, with the value it returned. -/
  | listen (fd : Int) (backlog : Nat) (ret : Int)
  /-- `sigaction(SIGCHLD, ...)`, with the value it returned. -/
  | sigaction (ret : Int)
  /-- `getaddrinfo(NULL, service, ...)`, with the value it returned. -/
  | getaddrinfo (service : String) (ret : Int)
  /-- `freeaddrinfo(result)`. -/
  | freeaddrinfo
  /-- `accept(fd, ...)`, with the value it returned. -/
  | accept (fd : Int) (ret : Int)
  /-- `fork()`, with the value it returned in this process. -/
  | fork (ret : Int)
  /-- `close(fd)`. -/
  | close (fd : Int)
  /-- `recv(fd, buf, len, 0)`. -/
  | recv (fd : Int) (len : Nat)
  /-- `send(fd, buf, len, 0)`: `payload` is the `len` bytes handed over. -/
  | send (fd : Int) (payload : List Nat)
  /-- `recvfrom(fd, buf, len, 0, &peer_addr, &peer_addr_len)`. -/
  | recvfrom (fd : Int) (len : Nat)
  /-- `sendto(fd, buf, len, 0, &peer_addr, peer_addr_len)`. -/
  | sendto (fd : Int) (payload : List Nat) (addr : List Nat) (addrlen : Nat)
  /-- `printf(fmt, args...)`. -/
  | stdout (fmt : String) (args : List Arg)
  /-- `fprintf(stderr, fmt, args...)`. -/
  | stderr (fmt : String) (args : List Arg)
  /-- `perror(s)`. -/
  | perror (s : String)
  /-- `exit(status)` or `_exit(status)`: the process is gone afterwards. -/
  | terminate (status : Nat)
  deriving DecidableEq, Repr

/-- What a `recv` delivers: an error (`-1`), or the bytes the kernel has for
the caller (none at all when the peer has closed the connection). -/
inductive RecvResult where
  | error
  | data (bytes : List Nat)
  deriving DecidableEq, Repr

/-- The return value of `recv(fd, buf, len, 0)`. -/
def recvCount (len : Nat) : RecvResult → Int
  | .error => -1
  | .data bytes => ((bytes.take len).length : Nat)

/-- The content of `buf` after `recv(fd, buf, len, 0)`: the delivered bytes, at
most `len`, overwrite the front of the buffer; on an error it is untouched. -/
def recvStore (buf : List Nat) (len : Nat) : RecvResult → List Nat
  | .error => buf
  | .data bytes => bytes.take len ++ buf.drop (bytes.take len).length

/-! ## command_server_tcp.c: the connection worker -/

/-- The local variables of `main` that the command loop reads and writes. -/
structure Worker where
  readbuf : List Nat
  sendbuf : List Nat
  nread : Int
  nsend : Int
  deriving DecidableEq, Repr

/-- Whether the process is still in its loop or has left through `_exit`. -/
inductive Status where
  | running
  | exited (status : Nat)
  deriving DecidableEq, Repr

/-- The greeting literal of line 181. -/
def welcomeMsg : String := "Welcome to Command Server V1.0\n\ncommand:  "

/-- The literal of `case 'H'`. -/
def helpMsg : String :=
  "Command Server Help.\n\nH(elp):  This help.\nC(ommand):  Print command.\nQ(uit):  Quit.\n\ncommand:  "

/-- The literal of `case 'C'`. -/
def commandMsg : String := "command\n\ncommand:  "

/-- The literal of `case 'Q'`. -/
def goodbyeMsg : String := "Goodbye.\n\n"

/-- The literal of `default:`. -/
def invalidMsg : String := "Invalid command.\n\ncommand:  "

/-- The log line after `recv` (lines 192-197). -/
def recvLog (nread : Int) : Event :=
  if nread = -1 then Event.stderr "Could not read from client\n" []
  else Event.stdout "Received %d bytes from client\n" [Arg.int nread]

/-- The log line after a response `send`: `tested` is the variable the branch
compares with `-1` (`nsend` in the cases H, C, Q; `nread` in `default:`). -/
def sendLog (tested nsend : Int) : Event :=
  if tested = -1 then Event.stderr "Could not send data to client\n" []
  else Event.stdout "Sent %d bytes to client\n" [Arg.int nsend]

/-- One pass through the body of the command loop (lines 189-243).
`r` is what `recv` delivers and `sres` is what the response `send` returns.
The buffers are arrays of `BUF_SIZE` bytes; `readbuf[0]` is read with the
default 0 so that the function is total on every list. -/
def sessionIter (asfd : Int) (w : Worker) (r : RecvResult) (sres : Int) :
    Worker × List Event × Status :=
  let nread := recvCount BUF_SIZE r
  let readbuf := recvStore w.readbuf BUF_SIZE r
  let pre := [Event.recv asfd BUF_SIZE, recvLog nread]
  let ccommand := readbuf.getD 0 0
  if ccommand = 'H'.toNat then
    let sendbuf := strncpy w.sendbuf (cstr helpMsg) BUF_SIZE
    (⟨readbuf, sendbuf, nread, sres⟩,
      pre ++ [Event.send asfd (sendbuf.take (strlen sendbuf)), sendLog sres sres],
      Status.running)
  else if ccommand = 'C'.toNat then
    let sendbuf := strncpy w.sendbuf (cstr commandMsg) BUF_SIZE
    (⟨readbuf, sendbuf, nread, sres⟩,
      pre ++ [Event.send asfd (sendbuf.take (strlen sendbuf)), sendLog sres sres],
      Status.running)
  else if ccommand = 'Q'.toNat then
    let sendbuf := strncpy w.sendbuf (cstr goodbyeMsg) BUF_SIZE
    (⟨readbuf, sendbuf, nread, sres⟩,
      pre ++ [Event.send asfd (sendbuf.take (strlen sendbuf)), sendLog sres sres,
              Event.terminate EXIT_SUCCESS],
      Status.exited EXIT_SUCCESS)
  else
    let sendbuf := strncpy w.sendbuf (cstr invalidMsg) BUF_SIZE
    (⟨readbuf, sendbuf, nread, sres⟩,
      pre ++ [Event.send asfd (sendbuf.take (strlen sendbuf)), sendLog nread sres],
      Status.running)

/-- The command loop `while (1)` of lines 187-245, run against the list of
what the successive `recv` calls deliver, each paired with the return value of
the `send` that answers it.  When the list is used up the worker is blocked in
`recv`, still `running`; after `_exit` nothing more is consumed. -/
def session (asfd : Int) (w : Worker) :
    List (RecvResult × Int) → Worker × List Event × Status
  | [] => (w, [], Status.running)
  | (r, sres) :: rest =>
    match sessionIter asfd w r sres with
    | (w1, evs, Status.running) =>
      let (w2, evs2, st) := session asfd w1 rest
      (w2, evs ++ evs2, st)
    | (w1, evs, Status.exited c) => (w1, evs, Status.exited c)

/-- The child branch `if (cpid == 0)` up to and including the command loop
(lines 174-247): peer name lookup, greeting, session.  `peername` is what
`inet_ntop` wrote and `greetRes` is what the greeting `send` returned. -/
def worker (asfd : Int) (peername : String) (w : Worker) (greetRes : Int)
    (inputs : List (RecvResult × Int)) : Worker × List Event × Status :=
  let sendbuf := strncpy w.sendbuf (cstr welcomeMsg) BUF_SIZE
  let hello := [Event.stdout "Accepted a connection from %s ...\n" [Arg.str peername],
                Event.send asfd (sendbuf.take BUF_SIZE)]
  let failed := if greetRes = -1 then [Event.stderr "Could not send header to client\n" []] else []
  let (w1, evs, st) := session asfd { w with sendbuf := sendbuf } inputs
  (w1, hello ++ failed ++ evs, st)

/-- The payloads of the `send` calls of a trace, in order. -/
def sentPayloads : List Event → List (List Nat)
  | [] => []
  | Event.send _ p :: evs => p :: sentPayloads evs
  | _ :: evs => sentPayloads evs

/-- The `send` and `recv` calls of a trace: the operations on a connection. -/
def connOps : List Event → List Event
  | [] => []
  | Event.send fd p :: evs => Event.send fd p :: connOps evs
  | Event.recv fd n :: evs => Event.recv fd n :: connOps evs
  | _ :: evs => connOps evs

/-! ## command_server_tcp.c: start-up and the accept loop -/

/-- `argv[0]` as the argument of a `%s`. -/
def argv0 (argv : List String) : Arg :=
  match argv with
  | [] => Arg.null
  | a :: _ => Arg.str a

/-- The usage exit shared by the four programs:
`fprintf(stderr, "Usage: %s port\n", argv[0]); exit(EXIT_FAILURE);`. -/
def usageExit (argv : List String) : List Event :=
  [Event.stderr "Usage: %s port\n" [argv0 argv], Event.terminate EXIT_FAILURE]

/-- `htons((uint16_t)port)` as the port number it denotes. -/
def portOf (port : Int) : Int := port % 65536

/-- What the operating system answers during the start-up of the two TCP
servers and of simpler_server.  `port` is the value the variable `port` holds
after `sscanf (argv[1], "%ld", &port)`. -/
structure StartEnv where
  port : Int
  socketRet : Int
  bindRet : Int
  listenRet : Int
  sigactionRet : Int
  deriving DecidableEq, Repr

/-- Lines 90-150 of command_server_tcp.c: `main` up to the accept loop.
`argc` is the length of `argv`.  The result is the trace and, when the
start-up reaches the accept loop, the listening descriptor. -/
def command_server_tcp_startup (argv : List String) (env : StartEnv) :
    List Event × Option Int :=
  if argv.length ≠ 2 then (usageExit argv, none)
  else
    let sfd := env.socketRet
    if sfd = -1 then
      ([Event.socket sfd, Event.stderr "Could not create socket\n" [],
        Event.terminate EXIT_FAILURE], none)
    else if env.bindRet ≠ 0 then
      ([Event.socket sfd, Event.bind sfd (portOf env.port) env.bindRet, Event.close sfd,
        Event.stderr "Could not bind socket\n" [], Event.terminate EXIT_FAILURE], none)
    else if env.listenRet ≠ 0 then
      ([Event.socket sfd, Event.bind sfd (portOf env.port) env.bindRet,
        Event.listen sfd BACKLOG env.listenRet, Event.close sfd,
        Event.stderr "Could not listen on socket\n" [], Event.terminate EXIT_FAILURE], none)
    else if env.sigactionRet = -1 then
      ([Event.socket sfd, Event.bind sfd (portOf env.port) env.bindRet,
        Event.listen sfd BACKLOG env.listenRet, Event.sigaction env.sigactionRet,
        Event.close sfd, Event.perror "sigaction", Event.terminate EXIT_FAILURE], none)
    else
      ([Event.socket sfd, Event.bind sfd (portOf env.port) env.bindRet,
        Event.listen sfd BACKLOG env.listenRet, Event.sigaction env.sigactionRet,
        Event.stdout "Waiting to accept connections ...\n" []], some sfd)

/-- One process of command_server_tcp in the accept loop: the descriptors it
has open, and the variables of `main`. -/
structure CmdProc where
  fds : List Int
  sfd : Int
  asfd : Int
  w : Worker
  deriving DecidableEq, Repr

/-- The descriptor table after a call that returns a new descriptor, or `-1`. -/
def openFd (fds : List Int) (fd : Int) : List Int :=
  if fd = -1 then fds else fd :: fds

/-- The descriptor table after `close(fd)`. -/
def closeFd (fds : List Int) (fd : Int) : List Int :=
  fds.filter (fun d => d != fd)

/-- Lines 155-161: `accept` and the report of its failure.  The loop goes on
to `fork` in either case. -/
def command_server_tcp_accept (p : CmdProc) (acceptRet : Int) : CmdProc × List Event :=
  let asfd := acceptRet
  ({ p with asfd := asfd, fds := openFd p.fds asfd },
   Event.accept p.sfd asfd ::
     (if asfd = -1 then [Event.stderr "Could not accept socket\n" []] else []))

/-- What the child is handed: the peer name `inet_ntop` writes, the return
value of the greeting `send`, and what the `recv`/`send` pairs of its command
loop return. -/
structure WorkerEnv where
  peername : String
  greetRes : Int
  inputs : List (RecvResult × Int)
  deriving DecidableEq, Repr

/-- Lines 165-247, in the process in which `fork` returned `cpid`: the failure
exit (`-1`), the child (`0`), or the parent, which goes back to `accept`.
A process that has exited holds no descriptor. -/
def command_server_tcp_fork (p : CmdProc) (cpid : Int) (env : WorkerEnv) :
    CmdProc × List Event × Status :=
  if cpid = -1 then
    ({ p with fds := [] },
     [Event.fork cpid, Event.close p.asfd, Event.close p.sfd,
      Event.stderr "Could not fork process\n" [], Event.terminate EXIT_FAILURE],
     Status.exited EXIT_FAILURE)
  else if cpid = 0 then
    match worker p.asfd env.peername p.w env.greetRes env.inputs with
    | (w1, evs, Status.running) => ({ p with w := w1 }, Event.fork cpid :: evs, Status.running)
    | (w1, evs, Status.exited c) =>
      ({ p with w := w1, fds := [] }, Event.fork cpid :: evs, Status.exited c)
  else
    (p, [Event.fork cpid], Status.running)

/-- The accept loop `while (1)` of lines 152-249 along one path of the process
tree: each entry is what `accept` and `fork` return in one iteration and what
the child is handed.  At an entry whose `fork` value is `0` the trace passes
into the child (the events before it are those of its parent); the child never
comes back to `accept`, so nothing after that entry is consumed. -/
def command_server_tcp_loop (p : CmdProc) :
    List (Int × Int × WorkerEnv) → CmdProc × List Event × Status
  | [] => (p, [], Status.running)
  | (acceptRet, cpid, env) :: rest =>
    let (p1, evs1) := command_server_tcp_accept p acceptRet
    match command_server_tcp_fork p1 cpid env with
    | (p2, evs2, Status.running) =>
      if cpid = 0 then (p2, evs1 ++ evs2, Status.running)
      else
        let (p3, evs3, st) := command_server_tcp_loop p2 rest
        (p3, evs1 ++ evs2 ++ evs3, st)
    | (p2, evs2, Status.exited c) => (p2, evs1 ++ evs2, Status.exited c)

/-! ## simple_server_tcp.c -/

/-- Lines 76-135 of simple_server_tcp.c: `main` up to the accept loop. -/
def simple_server_tcp_startup (argv : List String) (env : StartEnv) :
    List Event × Option Int :=
  if argv.length ≠ 2 then (usageExit argv, none)
  else
    let sfd := env.socketRet
    if sfd = -1 then
      ([Event.socket sfd, Event.stderr "Could not create socket\n" [],
        Event.terminate EXIT_FAILURE], none)
    else if env.bindRet ≠ 0 then
      ([Event.socket sfd, Event.bind sfd (portOf env.port) env.bindRet, Event.close sfd,
        Event.stderr "Could not bind socket\n" [], Event.terminate EXIT_FAILURE], none)
    else if env.listenRet ≠ 0 then
      ([Event.socket sfd, Event.bind sfd (portOf env.port) env.bindRet,
        Event.listen sfd BACKLOG env.listenRet, Event.close sfd,
        Event.stderr "Could not listen on socket\n" [], Event.terminate EXIT_FAILURE], none)
    else if env.sigactionRet = -1 then
      ([Event.socket sfd, Event.bind sfd (portOf env.port) env.bindRet,
        Event.listen sfd BACKLOG env.listenRet, Event.sigaction env.sigactionRet,
        Event.perror "sigaction", Event.terminate EXIT_FAILURE], none)
    else
      ([Event.socket sfd, Event.bind sfd (portOf env.port) env.bindRet,
        Event.listen sfd BACKLOG env.listenRet, Event.sigaction env.sigactionRet,
        Event.stdout "Waiting to accept connections ...\n" []], some sfd)

/-- One process of simple_server_tcp in the accept loop.  `buf` is the array
`char buf[BUF_SIZE]`, which no statement of the program writes. -/
structure EchoProc where
  fds : List Int
  sfd : Int
  asfd : Int
  buf : List Nat
  deriving DecidableEq, Repr

/-- Lines 139-148: `accept`, the test of `sfd` against `-1`, and the report of
the accepted peer.  The flag tells whether the iteration goes on to `fork`
(`false`: it took the `continue`). -/
def simple_server_tcp_accept (p : EchoProc) (acceptRet : Int) (peername : String) :
    EchoProc × List Event × Bool :=
  let asfd := acceptRet
  let p1 := { p with asfd := asfd, fds := openFd p.fds asfd }
  if p.sfd = -1 then
    (p1, [Event.accept p.sfd asfd, Event.stderr "Could not accept socket\n" []], false)
  else
    (p1, [Event.accept p.sfd asfd,
          Event.stdout "Accepted a connection from %s ...\n" [Arg.str peername]], true)

/-- Lines 150-155, in the process in which `fork` returned `forkRet`: when it
is `0` the process closes `sfd` and sends the buffer; in every case the
process then goes back to the top of the loop.  `sendRet` is what `send`
returns. -/
def simple_server_tcp_fork (p : EchoProc) (forkRet : Int) (peername : String)
    (sendRet : Int) : EchoProc × List Event :=
  if forkRet = 0 then
    ({ p with fds := closeFd p.fds p.sfd },
     [Event.fork forkRet, Event.close p.sfd, Event.send p.asfd (p.buf.take BUF_SIZE)] ++
       (if sendRet ≠ -1 then [Event.stderr "Could not send to peer %s ...\n" [Arg.str peername]]
        else []))
  else
    (p, [Event.fork forkRet])

/-- What the operating system answers in one iteration of the accept loop of
simple_server_tcp. -/
structure EchoEnv where
  acceptRet : Int
  peername : String
  forkRet : Int
  sendRet : Int
  deriving DecidableEq, Repr

/-- One iteration of the loop of lines 137-157, in one process. -/
def simple_server_tcp_iter (p : EchoProc) (env : EchoEnv) : EchoProc × List Event :=
  match simple_server_tcp_accept p env.acceptRet env.peername with
  | (p1, evs1, false) => (p1, evs1)
  | (p1, evs1, true) =>
    let (p2, evs2) := simple_server_tcp_fork p1 env.forkRet env.peername env.sendRet
    (p2, evs1 ++ evs2)

/-- The loop `while (1)` of lines 137-157 along one path of the process tree,
against the answers of its successive iterations: at an entry whose `fork`
value is `0` the trace passes into the child, which goes on looping. -/
def simple_server_tcp_loop (p : EchoProc) : List EchoEnv → EchoProc × List Event
  | [] => (p, [])
  | env :: rest =>
    let (p1, evs1) := simple_server_tcp_iter p env
    let (p2, evs2) := simple_server_tcp_loop p1 rest
    (p2, evs1 ++ evs2)

/-! ## simple_server.c and simpler_server.c: the UDP echo servers -/

/-- `sizeof(struct sockaddr_storage)`. -/
def SOCKADDR_STORAGE_SIZE : Nat := 128

/-- What a `recvfrom` delivers: an error (`-1`), or a datagram with the
address of its sender and the length of that address. -/
inductive RecvFromResult where
  | error
  | datagram (bytes : List Nat) (addr : List Nat) (addrlen : Nat)
  deriving DecidableEq, Repr

/-- What `getnameinfo` answers: its return value, the host and service names
it wrote, and the text of `gai_strerror` for the return value. -/
structure NameInfo where
  ret : Int
  host : String
  service : String
  errtext : String
  deriving DecidableEq, Repr

/-- The variables of `main` that the datagram loop reads and writes. -/
structure UdpState where
  buf : List Nat
  peer_addr : List Nat
  peer_addr_len : Nat
  nread : Int
  deriving DecidableEq, Repr

/-- One pass through the loop body of simple_server.c (lines 166-212).
`r` is what `recvfrom` delivers, `ni` what `getnameinfo` answers and
`sendtoRet` what `sendto` returns. -/
def simple_server_iter (sfd : Int) (st : UdpState) (r : RecvFromResult) (ni : NameInfo)
    (sendtoRet : Int) : UdpState × List Event :=
  let peer_addr_len := SOCKADDR_STORAGE_SIZE
  match r with
  | RecvFromResult.error =>
    ({ st with peer_addr_len := peer_addr_len, nread := -1 },
     [Event.recvfrom sfd BUF_SIZE])
  | RecvFromResult.datagram bytes addr addrlen =>
    let data := bytes.take BUF_SIZE
    let nread := data.length
    let buf := data ++ st.buf.drop nread
    ({ buf := buf, peer_addr := addr, peer_addr_len := addrlen, nread := nread },
     [Event.recvfrom sfd BUF_SIZE,
      (if ni.ret = 0 then
         Event.stdout "Received %ld bytes from %s:%s\n"
           [Arg.int nread, Arg.str ni.host, Arg.str ni.service]
       else Event.stderr "getnameinfo: %s\n" [Arg.str ni.errtext]),
      Event.sendto sfd (buf.take nread) addr addrlen] ++
     (if sendtoRet ≠ nread then [Event.stderr "Error sending response\n" []] else []))

/-- One pass through the loop body of simpler_server.c (lines 97-143). -/
def simpler_server_iter (sfd : Int) (st : UdpState) (r : RecvFromResult) (ni : NameInfo)
    (sendtoRet : Int) : UdpState × List Event :=
  let peer_addr_len := SOCKADDR_STORAGE_SIZE
  match r with
  | RecvFromResult.error =>
    ({ st with peer_addr_len := peer_addr_len, nread := -1 },
     [Event.recvfrom sfd BUF_SIZE])
  | RecvFromResult.datagram bytes addr addrlen =>
    let data := bytes.take BUF_SIZE
    let nread := data.length
    let buf := data ++ st.buf.drop nread
    ({ buf := buf, peer_addr := addr, peer_addr_len := addrlen, nread := nread },
     [Event.recvfrom sfd BUF_SIZE,
      (if ni.ret = 0 then
         Event.stdout "Received %ld bytes from %s:%s\n"
           [Arg.int nread, Arg.str ni.host, Arg.str ni.service]
       else Event.stderr "getnameinfo: %s\n" [Arg.str ni.errtext]),
      Event.sendto sfd (buf.take nread) addr addrlen] ++
     (if sendtoRet ≠ nread then [Event.stderr "Error sending response\n" []] else []))

/-- The loop `for (;;)` of simple_server.c against the answers of its
successive iterations. -/
def simple_server_loop (sfd : Int) (st : UdpState) :
    List (RecvFromResult × NameInfo × Int) → UdpState × List Event
  | [] => (st, [])
  | (r, ni, sendtoRet) :: rest =>
    let (st1, evs1) := simple_server_iter sfd st r ni sendtoRet
    let (st2, evs2) := simple_server_loop sfd st1 rest
    (st2, evs1 ++ evs2)

/-- The loop `for (;;)` of simpler_server.c against the answers of its
successive iterations. -/
def simpler_server_loop (sfd : Int) (st : UdpState) :
    List (RecvFromResult × NameInfo × Int) → UdpState × List Event
  | [] => (st, [])
  | (r, ni, sendtoRet) :: rest =>
    let (st1, evs1) := simpler_server_iter sfd st r ni sendtoRet
    let (st2, evs2) := simpler_server_loop sfd st1 rest
    (st2, evs1 ++ evs2)

/-- Lines 53-93 of simpler_server.c: `main` up to the datagram loop. -/
def simpler_server_startup (argv : List String) (env : StartEnv) :
    List Event × Option Int :=
  if argv.length ≠ 2 then (usageExit argv, none)
  else
    let sfd := env.socketRet
    if sfd = -1 then
      ([Event.socket sfd, Event.stderr "Could not create socket\n" [],
        Event.terminate EXIT_FAILURE], none)
    else if env.bindRet ≠ 0 then
      ([Event.socket sfd, Event.bind sfd (portOf env.port) env.bindRet, Event.close sfd,
        Event.stderr "Could not bind socket\n" [], Event.terminate EXIT_FAILURE], none)
    else
      ([Event.socket sfd, Event.bind sfd (portOf env.port) env.bindRet], some sfd)

/-- What the operating system answers during the start-up of simple_server:
the return value of `getaddrinfo` with its `gai_strerror` text, and for each
entry of the result list the port of its address and what `socket` and `bind`
return for it. -/
structure AddrEnv where
  gaiRet : Int
  gaiText : String
  entries : List (Int × Int × Int)
  deriving DecidableEq, Repr

/-- The loop `for (rp = result; rp != NULL; rp = rp->ai_next)` of lines
129-150 over entries `(port, socketRet, bindRet)`: the trace, and the bound
descriptor unless the list ran out (`rp == NULL`). -/
def simple_server_bind : List (Int × Int × Int) → List Event × Option Int
  | [] => ([], none)
  | (port, sfd, bindRet) :: rest =>
    if sfd = -1 then
      let (evs, res) := simple_server_bind rest
      (Event.socket sfd :: evs, res)
    else if bindRet = 0 then
      ([Event.socket sfd, Event.bind sfd port bindRet], some sfd)
    else
      let (evs, res) := simple_server_bind rest
      ([Event.socket sfd, Event.bind sfd port bindRet, Event.close sfd] ++ evs, res)

/-- Lines 84-162 of simple_server.c: `main` up to the datagram loop. -/
def simple_server_startup (argv : List String) (env : AddrEnv) :
    List Event × Option Int :=
  if argv.length ≠ 2 then (usageExit argv, none)
  else
    let service := argv.getD 1 ""
    if env.gaiRet ≠ 0 then
      ([Event.getaddrinfo service env.gaiRet,
        Event.stderr "getaddrinfo: %s\n" [Arg.str env.gaiText],
        Event.terminate EXIT_FAILURE], none)
    else
      match simple_server_bind env.entries with
      | (evs, none) =>
        (Event.getaddrinfo service env.gaiRet :: evs ++
          [Event.stderr "Could not bind\n" [], Event.terminate EXIT_FAILURE], none)
      | (evs, some sfd) =>
        (Event.getaddrinfo service env.gaiRet :: evs ++ [Event.freeaddrinfo], some sfd)

/-- Whether an event creates a socket. -/
def isSocketCall : Event → Bool
  | Event.socket _ => true
  | _ => false

/-- Whether an event is the usage message on standard error. -/
def isUsageMessage : Event → Bool
  | Event.stderr fmt _ => fmt == "Usage: %s port\n"
  | _ => false

/-- The `sendto` calls of a trace, in order. -/
def sendtoCalls : List Event → List Event
  | [] => []
  | Event.sendto fd p a n :: evs => Event.sendto fd p a n :: sendtoCalls evs
  | _ :: evs => sendtoCalls evs

/-- Whether an event is a `close`. -/
def isClose : Event → Bool
  | Event.close _ => true
  | _ => false

/-- Whether an event is a `fork`. -/
def isFork : Event → Bool
  | Event.fork _ => true
  | _ => false

/-- The number of `fork` calls of a trace. -/
def forkCalls (evs : List Event) : Nat := (evs.filter isFork).length

/-- Whether an event ends the process (`exit` or `_exit`). -/
def isTerminate : Event → Bool
  | Event.terminate _ => true
  | _ => false

/-- Whether an event is a `recv`. -/
def isRecv : Event → Bool
  | Event.recv _ _ => true
  | _ => false

/-- The command bytes a session dispatches: the first byte of the read buffer
after each successive `recv`. -/
def dispatched (readbuf : List Nat) : List RecvResult → List Nat
  | [] => []
  | r :: rest =>
    (recvStore readbuf BUF_SIZE r).getD 0 0 :: dispatched (recvStore readbuf BUF_SIZE r) rest

/-! ## Facts about the C library pieces -/

theorem takeWhile_nonzero_append_zero (s t : List Nat) (h : ∀ b ∈ s, b ≠ 0) :
    (s ++ 0 :: t).takeWhile (fun b => b != 0) = s := by
  induction s with
  | nil => simp
  | cons a s ih =>
    have ha : a ≠ 0 := h a (by simp)
    have hs : ∀ b ∈ s, b ≠ 0 := fun b hb => h b (by simp [hb])
    rw [List.cons_append, List.takeWhile_cons_of_pos (by simpa using ha), ih hs]

theorem takeWhile_nonzero_self (s : List Nat) (h : ∀ b ∈ s, b ≠ 0) :
    s.takeWhile (fun b => b != 0) = s := by
  induction s with
  | nil => simp
  | cons a s ih =>
    have ha : a ≠ 0 := h a (by simp)
    have hs : ∀ b ∈ s, b ≠ 0 := fun b hb => h b (by simp [hb])
    rw [List.takeWhile_cons_of_pos (by simpa using ha), ih hs]

/-- Copying a string without NUL bytes that fits: the string, then padding. -/
theorem strncpy_fits (dest s : List Nat) (n : Nat) (h : ∀ b ∈ s, b ≠ 0)
    (hn : s.length ≤ n) :
    strncpy dest s n = s ++ List.replicate (n - s.length) 0 ++ dest.drop n := by
  unfold strncpy
  simp only [takeWhile_nonzero_self s h]
  rw [List.take_of_length_le hn]

/-- After `strncpy` of a string shorter than the buffer, the first `strlen`
bytes of the buffer are that string. -/
theorem take_strlen_strncpy (dest s : List Nat) (n : Nat) (h : ∀ b ∈ s, b ≠ 0)
    (hn : s.length < n) :
    (strncpy dest s n).take (strlen (strncpy dest s n)) = s := by
  rw [strncpy_fits dest s n h (Nat.le_of_lt hn)]
  obtain ⟨k, hk⟩ : ∃ k, n - s.length = k + 1 := ⟨n - s.length - 1, by omega⟩
  have hform : s ++ List.replicate (n - s.length) 0 ++ dest.drop n
      = s ++ 0 :: (List.replicate k 0 ++ dest.drop n) := by
    rw [hk, List.replicate_succ]; simp
  rw [hform]
  unfold strlen
  rw [takeWhile_nonzero_append_zero s _ h]
  simp

/-- The whole buffer after `strncpy` with the buffer size: string and padding. -/
theorem take_size_strncpy (dest s : List Nat) (n : Nat) (h : ∀ b ∈ s, b ≠ 0)
    (hn : s.length ≤ n) :
    (strncpy dest s n).take n = s ++ List.replicate (n - s.length) 0 := by
  rw [strncpy_fits dest s n h hn]
  have hlen : (s ++ List.replicate (n - s.length) 0).length = n := by
    simp; omega
  rw [List.take_append_of_le_length (by omega)]
  exact List.take_of_length_le (by omega)

theorem helpMsg_nonzero : ∀ b ∈ cstr helpMsg, b ≠ 0 := by decide
theorem commandMsg_nonzero : ∀ b ∈ cstr commandMsg, b ≠ 0 := by decide
theorem goodbyeMsg_nonzero : ∀ b ∈ cstr goodbyeMsg, b ≠ 0 := by decide
theorem invalidMsg_nonzero : ∀ b ∈ cstr invalidMsg, b ≠ 0 := by decide
theorem welcomeMsg_nonzero : ∀ b ∈ cstr welcomeMsg, b ≠ 0 := by decide

/-- A `recv` that delivers at least one byte puts that byte first. -/
theorem recvStore_data_cons (buf : List Nat) (b : Nat) (bs : List Nat) :
    (recvStore buf BUF_SIZE (RecvResult.data (b :: bs))).getD 0 0 = b := by
  simp [recvStore, BUF_SIZE]

/-! ## The four branches of the dispatch -/

theorem sessionIter_H (asfd : Int) (w : Worker) (r : RecvResult) (sres : Int)
    (h : (recvStore w.readbuf BUF_SIZE r).getD 0 0 = 'H'.toNat) :
    sessionIter asfd w r sres =
      (⟨recvStore w.readbuf BUF_SIZE r, strncpy w.sendbuf (cstr helpMsg) BUF_SIZE,
         recvCount BUF_SIZE r, sres⟩,
       [Event.recv asfd BUF_SIZE, recvLog (recvCount BUF_SIZE r),
        Event.send asfd (cstr helpMsg), sendLog sres sres],
       Status.running) := by
  unfold sessionIter
  simp only [h, if_true]
  rw [take_strlen_strncpy _ _ _ helpMsg_nonzero (by decide)]
  rfl

theorem sessionIter_C (asfd : Int) (w : Worker) (r : RecvResult) (sres : Int)
    (h : (recvStore w.readbuf BUF_SIZE r).getD 0 0 = 'C'.toNat) :
    sessionIter asfd w r sres =
      (⟨recvStore w.readbuf BUF_SIZE r, strncpy w.sendbuf (cstr commandMsg) BUF_SIZE,
         recvCount BUF_SIZE r, sres⟩,
       [Event.recv asfd BUF_SIZE, recvLog (recvCount BUF_SIZE r),
        Event.send asfd (cstr commandMsg), sendLog sres sres],
       Status.running) := by
  unfold sessionIter
  have hne : ¬ ('C'.toNat = 'H'.toNat) := by decide
  simp only [h, hne, if_true, if_false]
  rw [take_strlen_strncpy _ _ _ commandMsg_nonzero (by decide)]
  rfl

theorem sessionIter_Q (asfd : Int) (w : Worker) (r : RecvResult) (sres : Int)
    (h : (recvStore w.readbuf BUF_SIZE r).getD 0 0 = 'Q'.toNat) :
    sessionIter asfd w r sres =
      (⟨recvStore w.readbuf BUF_SIZE r, strncpy w.sendbuf (cstr goodbyeMsg) BUF_SIZE,
         recvCount BUF_SIZE r, sres⟩,
       [Event.recv asfd BUF_SIZE, recvLog (recvCount BUF_SIZE r),
        Event.send asfd (cstr goodbyeMsg), sendLog sres sres,
        Event.terminate EXIT_SUCCESS],
       Status.exited EXIT_SUCCESS) := by
  unfold sessionIter
  have hne1 : ¬ ('Q'.toNat = 'H'.toNat) := by decide
  have hne2 : ¬ ('Q'.toNat = 'C'.toNat) := by decide
  simp only [h, hne1, hne2, if_true, if_false]
  rw [take_strlen_strncpy _ _ _ goodbyeMsg_nonzero (by decide)]
  rfl

theorem sessionIter_default (asfd : Int) (w : Worker) (r : RecvResult) (sres : Int)
    (hH : (recvStore w.readbuf BUF_SIZE r).getD 0 0 ≠ 'H'.toNat)
    (hC : (recvStore w.readbuf BUF_SIZE r).getD 0 0 ≠ 'C'.toNat)
    (hQ : (recvStore w.readbuf BUF_SIZE r).getD 0 0 ≠ 'Q'.toNat) :
    sessionIter asfd w r sres =
      (⟨recvStore w.readbuf BUF_SIZE r, strncpy w.sendbuf (cstr invalidMsg) BUF_SIZE,
         recvCount BUF_SIZE r, sres⟩,
       [Event.recv asfd BUF_SIZE, recvLog (recvCount BUF_SIZE r),
        Event.send asfd (cstr invalidMsg), sendLog (recvCount BUF_SIZE r) sres],
       Status.running) := by
  unfold sessionIter
  simp only [hH, hC, hQ, if_false]
  rw [take_strlen_strncpy _ _ _ invalidMsg_nonzero (by decide)]
  rfl

theorem sentPayloads_recvLog (n : Int) (evs : List Event) :
    sentPayloads (recvLog n :: evs) = sentPayloads evs := by
  unfold recvLog; split <;> rfl

theorem sentPayloads_sendLog (t n : Int) (evs : List Event) :
    sentPayloads (sendLog t n :: evs) = sentPayloads evs := by
  unfold sendLog; split <;> rfl

theorem sentPayloads_append (xs ys : List Event) :
    sentPayloads (xs ++ ys) = sentPayloads xs ++ sentPayloads ys := by
  induction xs with
  | nil => rfl
  | cons e xs ih => cases e <;> simp [sentPayloads, ih]

theorem connOps_recvLog (n : Int) (evs : List Event) :
    connOps (recvLog n :: evs) = connOps evs := by
  unfold recvLog; split <;> rfl

theorem connOps_sendLog (t n : Int) (evs : List Event) :
    connOps (sendLog t n :: evs) = connOps evs := by
  unfold sendLog; split <;> rfl

/-- An iteration that stays in the loop hands over to the next `recv`. -/
theorem session_cons_running (asfd : Int) (w : Worker) (r : RecvResult) (sres : Int)
    (rest : List (RecvResult × Int))
    (h : (sessionIter asfd w r sres).2.2 = Status.running) :
    session asfd w ((r, sres) :: rest) =
      ((session asfd (sessionIter asfd w r sres).1 rest).1,
       (sessionIter asfd w r sres).2.1 ++ (session asfd (sessionIter asfd w r sres).1 rest).2.1,
       (session asfd (sessionIter asfd w r sres).1 rest).2.2) := by
  rcases hs : sessionIter asfd w r sres with ⟨w1, evs, st⟩
  rw [hs] at h
  simp only at h
  subst h
  simp [session, hs]

/-- An iteration that leaves through `_exit` ends the session. -/
theorem session_cons_exited (asfd : Int) (w : Worker) (r : RecvResult) (sres : Int)
    (rest : List (RecvResult × Int)) (c : Nat)
    (h : (sessionIter asfd w r sres).2.2 = Status.exited c) :
    session asfd w ((r, sres) :: rest) = sessionIter asfd w r sres := by
  rcases hs : sessionIter asfd w r sres with ⟨w1, evs, st⟩
  rw [hs] at h
  simp only at h
  subst h
  simp [session, hs]

/-- A command whose every dispatch sends one fixed payload and stays in the
loop sends that payload once per command when repeated. -/
theorem session_repeat (c : Nat) (m : List Nat)
    (hstep : ∀ (asfd : Int) (w : Worker) (r : RecvResult) (sres : Int),
      (recvStore w.readbuf BUF_SIZE r).getD 0 0 = c →
      sentPayloads (sessionIter asfd w r sres).2.1 = [m] ∧
      (sessionIter asfd w r sres).2.2 = Status.running)
    (asfd : Int) (w : Worker) (inputs : List (RecvResult × Int))
    (hall : ∀ x ∈ inputs, ∃ bs, x.1 = RecvResult.data (c :: bs)) :
    sentPayloads (session asfd w inputs).2.1 = List.replicate inputs.length m ∧
    (session asfd w inputs).2.2 = Status.running := by
  induction inputs generalizing w with
  | nil => exact ⟨rfl, rfl⟩
  | cons x xs ih =>
    obtain ⟨r1, s1⟩ := x
    obtain ⟨bs, hbs⟩ := hall (r1, s1) (by simp)
    simp only at hbs
    subst hbs
    obtain ⟨hp, hrun⟩ := hstep asfd w (RecvResult.data (c :: bs)) s1
      (recvStore_data_cons _ _ _)
    have ih1 := ih (sessionIter asfd w (RecvResult.data (c :: bs)) s1).1
      (fun y hy => hall y (by simp [hy]))
    rw [session_cons_running asfd w _ s1 xs hrun]
    refine ⟨?_, ih1.2⟩
    simp only [sentPayloads_append, ih1.1, hp]
    rfl

/-! ## The command vocabulary (command_server_tcp.c, lines 200-243) -/

/-- C1. In the command loop, whatever the state the earlier commands left
behind, when the first byte of the read buffer is `H` the one payload sent is
the 95 bytes of the help text, without NUL padding, and the loop goes on to the
next `recv`; a session in which every `recv` delivers data starting with `H`
sends that same text once per command. -/
theorem C1_help_response (asfd : Int) (w : Worker) (r : RecvResult) (sres : Int)
    (rest inputs : List (RecvResult × Int))
    (hH : (recvStore w.readbuf BUF_SIZE r).getD 0 0 = 'H'.toNat)
    (hall : ∀ x ∈ inputs, ∃ bs, x.1 = RecvResult.data ('H'.toNat :: bs)) :
    sentPayloads (sessionIter asfd w r sres).2.1 =
        [cstr "Command Server Help.\n\nH(elp):  This help.\nC(ommand):  Print command.\nQ(uit):  Quit.\n\ncommand:  "]
      ∧ (cstr "Command Server Help.\n\nH(elp):  This help.\nC(ommand):  Print command.\nQ(uit):  Quit.\n\ncommand:  ").length = 95
      ∧ (sessionIter asfd w r sres).2.2 = Status.running
      ∧ (session asfd w ((r, sres) :: rest)).2.1 =
          (sessionIter asfd w r sres).2.1 ++
            (session asfd (sessionIter asfd w r sres).1 rest).2.1
      ∧ sentPayloads (session asfd w inputs).2.1 =
          List.replicate inputs.length
            (cstr "Command Server Help.\n\nH(elp):  This help.\nC(ommand):  Print command.\nQ(uit):  Quit.\n\ncommand:  ")
      ∧ (session asfd w inputs).2.2 = Status.running := by
  have hiter := sessionIter_H asfd w r sres hH
  have hrun : (sessionIter asfd w r sres).2.2 = Status.running := by rw [hiter]
  refine ⟨?_, by decide, hrun, ?_, ?_⟩
  · rw [hiter]
    simp only [sentPayloads, sentPayloads_recvLog, sentPayloads_sendLog]
    rfl
  · rw [session_cons_running asfd w r sres rest hrun]
  · clear hiter hrun hH
    induction inputs generalizing w with
    | nil => exact ⟨rfl, rfl⟩
    | cons x xs ih =>
      obtain ⟨r1, s1⟩ := x
      obtain ⟨bs, hbs⟩ := hall (r1, s1) (by simp)
      simp only at hbs
      subst hbs
      have h1 := sessionIter_H asfd w (RecvResult.data ('H'.toNat :: bs)) s1
        (recvStore_data_cons _ _ _)
      have hrun1 : (sessionIter asfd w (RecvResult.data ('H'.toNat :: bs)) s1).2.2
          = Status.running := by rw [h1]
      have ih1 := ih (sessionIter asfd w (RecvResult.data ('H'.toNat :: bs)) s1).1
        (fun y hy => hall y (by simp [hy]))
      rw [session_cons_running asfd w _ s1 xs hrun1]
      refine ⟨?_, ih1.2⟩
      simp only [sentPayloads_append, ih1.1]
      rw [h1]
      simp only [sentPayloads, sentPayloads_recvLog, sentPayloads_sendLog]
      rfl

/-- C1, at a concrete session: `H`, newline; then `H`. -/
theorem C1_help_response_witness :
    (recvStore [] BUF_SIZE (RecvResult.data [72, 10])).getD 0 0 = 'H'.toNat
    ∧ (∀ x ∈ [(RecvResult.data [72, 10], (95 : Int)), (RecvResult.data [72], 95)],
        ∃ bs, x.1 = RecvResult.data ('H'.toNat :: bs))
    ∧ sentPayloads
        (session 4 ⟨[], [], 0, 0⟩
          [(RecvResult.data [72, 10], 95), (RecvResult.data [72], 95)]).2.1
        = List.replicate 2 (cstr helpMsg) :=
  have hall : ∀ x ∈ [(RecvResult.data [72, 10], (95 : Int)), (RecvResult.data [72], 95)],
      ∃ bs, x.1 = RecvResult.data ('H'.toNat :: bs) := by
    intro x hx
    simp only [List.mem_cons, List.mem_singleton, List.not_mem_nil, or_false] at hx
    rcases hx with rfl | rfl
    · exact ⟨[10], rfl⟩
    · exact ⟨[], rfl⟩
  ⟨by decide, hall,
    (C1_help_response 4 ⟨[], [], 0, 0⟩ (RecvResult.data [72, 10]) 95 []
      [(RecvResult.data [72, 10], 95), (RecvResult.data [72], 95)]
      (by decide) hall).2.2.2.2.1⟩

/-- C2. In the command loop, whatever the state the earlier commands left
behind, when the first byte of the read buffer is `C` the one payload sent is
the 19 bytes `command`, two newlines, `command:  `, without NUL padding, and
the loop goes on to the next `recv`; a session in which every `recv` delivers
data starting with `C` sends that same text once per command. -/
theorem C2_command_response (asfd : Int) (w : Worker) (r : RecvResult) (sres : Int)
    (rest inputs : List (RecvResult × Int))
    (hC : (recvStore w.readbuf BUF_SIZE r).getD 0 0 = 'C'.toNat)
    (hall : ∀ x ∈ inputs, ∃ bs, x.1 = RecvResult.data ('C'.toNat :: bs)) :
    sentPayloads (sessionIter asfd w r sres).2.1 = [cstr "command\n\ncommand:  "]
      ∧ (cstr "command\n\ncommand:  ").length = 19
      ∧ (sessionIter asfd w r sres).2.2 = Status.running
      ∧ (session asfd w ((r, sres) :: rest)).2.1 =
          (sessionIter asfd w r sres).2.1 ++
            (session asfd (sessionIter asfd w r sres).1 rest).2.1
      ∧ sentPayloads (session asfd w inputs).2.1 =
          List.replicate inputs.length (cstr "command\n\ncommand:  ")
      ∧ (session asfd w inputs).2.2 = Status.running := by
  have hstep : ∀ (asfd : Int) (w : Worker) (r : RecvResult) (sres : Int),
      (recvStore w.readbuf BUF_SIZE r).getD 0 0 = 'C'.toNat →
      sentPayloads (sessionIter asfd w r sres).2.1 = [cstr "command\n\ncommand:  "] ∧
      (sessionIter asfd w r sres).2.2 = Status.running := by
    intro asfd w r sres h
    rw [sessionIter_C asfd w r sres h]
    simp only [sentPayloads, sentPayloads_recvLog, sentPayloads_sendLog]
    exact ⟨rfl, trivial⟩
  obtain ⟨hp, hrun⟩ := hstep asfd w r sres hC
  refine ⟨hp, by decide, hrun, ?_, session_repeat _ _ hstep asfd w inputs hall⟩
  rw [session_cons_running asfd w r sres rest hrun]

/-- C2, at a concrete session: `C`, newline; then `C`. -/
theorem C2_command_response_witness :
    (recvStore [] BUF_SIZE (RecvResult.data [67, 10])).getD 0 0 = 'C'.toNat
    ∧ (∀ x ∈ [(RecvResult.data [67, 10], (19 : Int)), (RecvResult.data [67], 19)],
        ∃ bs, x.1 = RecvResult.data ('C'.toNat :: bs))
    ∧ sentPayloads
        (session 4 ⟨[], [], 0, 0⟩
          [(RecvResult.data [67, 10], 19), (RecvResult.data [67], 19)]).2.1
        = List.replicate 2 (cstr commandMsg) :=
  have hall : ∀ x ∈ [(RecvResult.data [67, 10], (19 : Int)), (RecvResult.data [67], 19)],
      ∃ bs, x.1 = RecvResult.data ('C'.toNat :: bs) := by
    intro x hx
    simp only [List.mem_cons, List.mem_singleton, List.not_mem_nil, or_false] at hx
    rcases hx with rfl | rfl
    · exact ⟨[10], rfl⟩
    · exact ⟨[], rfl⟩
  ⟨by decide, hall,
    (C2_command_response 4 ⟨[], [], 0, 0⟩ (RecvResult.data [67, 10]) 19 []
      [(RecvResult.data [67, 10], 19), (RecvResult.data [67], 19)]
      (by decide) hall).2.2.2.2.1⟩

/-- C3. When the first byte of the read buffer is `Q` the iteration is: the
`recv`, its log line, one `send` of the 10 bytes `Goodbye.` and two newlines,
the log line of that `send`, and `_exit(EXIT_SUCCESS)`; whatever the `send`
returned, the session ends there: nothing that would follow is consumed, and no
`recv` or `send` comes after the goodbye `send`. -/
theorem C3_quit_response (asfd : Int) (w : Worker) (r : RecvResult) (sres : Int)
    (rest : List (RecvResult × Int))
    (hQ : (recvStore w.readbuf BUF_SIZE r).getD 0 0 = 'Q'.toNat) :
    (session asfd w ((r, sres) :: rest)).2.1 =
        [Event.recv asfd BUF_SIZE, recvLog (recvCount BUF_SIZE r),
         Event.send asfd (cstr "Goodbye.\n\n")] ++
        [sendLog sres sres, Event.terminate EXIT_SUCCESS]
      ∧ (cstr "Goodbye.\n\n").length = 10
      ∧ connOps [sendLog sres sres, Event.terminate EXIT_SUCCESS] = []
      ∧ (session asfd w ((r, sres) :: rest)).2.2 = Status.exited EXIT_SUCCESS
      ∧ EXIT_SUCCESS = 0
      ∧ session asfd w ((r, sres) :: rest) = sessionIter asfd w r sres := by
  have hiter := sessionIter_Q asfd w r sres hQ
  have hex : (sessionIter asfd w r sres).2.2 = Status.exited EXIT_SUCCESS := by rw [hiter]
  have hs := session_cons_exited asfd w r sres rest EXIT_SUCCESS hex
  refine ⟨?_, by decide, ?_, ?_, rfl, hs⟩
  · rw [hs, hiter]; rfl
  · rw [connOps_sendLog]; rfl
  · rw [hs, hex]

/-- C3, at a concrete session: `Q` whose goodbye `send` fails, with more data
from the client pending. -/
theorem C3_quit_response_witness :
    (recvStore [] BUF_SIZE (RecvResult.data [81, 10])).getD 0 0 = 'Q'.toNat
    ∧ session 4 ⟨[], [], 0, 0⟩ [(RecvResult.data [81, 10], -1), (RecvResult.data [72], 95)]
        = sessionIter 4 ⟨[], [], 0, 0⟩ (RecvResult.data [81, 10]) (-1) :=
  ⟨by decide,
    (C3_quit_response 4 ⟨[], [], 0, 0⟩ (RecvResult.data [81, 10]) (-1)
      [(RecvResult.data [72], 95)] (by decide)).2.2.2.2.2⟩

/-- C4. When the first byte of the read buffer is any byte other than `H`, `C`
and `Q`, the one payload sent is the 28 bytes `Invalid command.`, two newlines,
`command:  `, and the loop goes on to the next `recv`.  Only the first byte is
looked at; in particular data starting with `h`, `c`, `q`, a newline or a NUL
byte is answered so, whatever follows. -/
theorem C4_invalid_response (asfd : Int) (w : Worker) (r : RecvResult) (sres : Int)
    (rest : List (RecvResult × Int))
    (hH : (recvStore w.readbuf BUF_SIZE r).getD 0 0 ≠ 'H'.toNat)
    (hC : (recvStore w.readbuf BUF_SIZE r).getD 0 0 ≠ 'C'.toNat)
    (hQ : (recvStore w.readbuf BUF_SIZE r).getD 0 0 ≠ 'Q'.toNat) :
    sentPayloads (sessionIter asfd w r sres).2.1 = [cstr "Invalid command.\n\ncommand:  "]
      ∧ (cstr "Invalid command.\n\ncommand:  ").length = 28
      ∧ (sessionIter asfd w r sres).2.2 = Status.running
      ∧ (session asfd w ((r, sres) :: rest)).2.1 =
          (sessionIter asfd w r sres).2.1 ++
            (session asfd (sessionIter asfd w r sres).1 rest).2.1
      ∧ (∀ b ∈ ['h'.toNat, 'c'.toNat, 'q'.toNat, '\n'.toNat, 0], ∀ (bs : List Nat)
          (w1 : Worker) (s1 : Int),
          sentPayloads (sessionIter asfd w1 (RecvResult.data (b :: bs)) s1).2.1 =
            [cstr "Invalid command.\n\ncommand:  "]) := by
  have hstep : ∀ (w : Worker) (r : RecvResult) (sres : Int),
      (recvStore w.readbuf BUF_SIZE r).getD 0 0 ≠ 'H'.toNat →
      (recvStore w.readbuf BUF_SIZE r).getD 0 0 ≠ 'C'.toNat →
      (recvStore w.readbuf BUF_SIZE r).getD 0 0 ≠ 'Q'.toNat →
      sentPayloads (sessionIter asfd w r sres).2.1 = [cstr "Invalid command.\n\ncommand:  "] ∧
      (sessionIter asfd w r sres).2.2 = Status.running := by
    intro w r sres h1 h2 h3
    rw [sessionIter_default asfd w r sres h1 h2 h3]
    simp only [sentPayloads, sentPayloads_recvLog, sentPayloads_sendLog]
    exact ⟨rfl, trivial⟩
  obtain ⟨hp, hrun⟩ := hstep w r sres hH hC hQ
  refine ⟨hp, by decide, hrun, ?_, ?_⟩
  · rw [session_cons_running asfd w r sres rest hrun]
  · intro b hb bs w1 s1
    have hb3 : b ≠ 'H'.toNat ∧ b ≠ 'C'.toNat ∧ b ≠ 'Q'.toNat := by
      revert b; decide
    refine (hstep w1 (RecvResult.data (b :: bs)) s1 ?_ ?_ ?_).1
    · rw [recvStore_data_cons]; exact hb3.1
    · rw [recvStore_data_cons]; exact hb3.2.1
    · rw [recvStore_data_cons]; exact hb3.2.2

/-- C4, at a concrete session: a lowercase `h` on top of a buffer that still
holds an earlier `Q`. -/
theorem C4_invalid_response_witness :
    (recvStore [81, 10] BUF_SIZE (RecvResult.data [104])).getD 0 0 ≠ 'H'.toNat
    ∧ (recvStore [81, 10] BUF_SIZE (RecvResult.data [104])).getD 0 0 ≠ 'C'.toNat
    ∧ (recvStore [81, 10] BUF_SIZE (RecvResult.data [104])).getD 0 0 ≠ 'Q'.toNat
    ∧ sentPayloads (sessionIter 4 ⟨[81, 10], [], 2, 10⟩ (RecvResult.data [104]) 28).2.1
        = [cstr invalidMsg] :=
  ⟨by decide, by decide, by decide,
    (C4_invalid_response 4 ⟨[81, 10], [], 2, 10⟩ (RecvResult.data [104]) 28 []
      (by decide) (by decide) (by decide)).1⟩

/-- C5. The worker of a connection first reports the peer on standard output
and then sends the greeting: a `send` of 512 bytes, the 42 bytes of the welcome
text followed by 470 NUL bytes; that `send` is the first operation on the
connection, before any `recv`, whatever the client does. -/
theorem C5_greeting_first (asfd : Int) (peername : String) (w : Worker) (greetRes : Int)
    (inputs : List (RecvResult × Int)) :
    (∃ tail, (worker asfd peername w greetRes inputs).2.1 =
        Event.stdout "Accepted a connection from %s ...\n" [Arg.str peername] ::
        Event.send asfd
          (cstr "Welcome to Command Server V1.0\n\ncommand:  " ++ List.replicate 470 0) ::
        tail)
      ∧ (connOps (worker asfd peername w greetRes inputs).2.1).head? =
          some (Event.send asfd
            (cstr "Welcome to Command Server V1.0\n\ncommand:  " ++ List.replicate 470 0))
      ∧ (cstr "Welcome to Command Server V1.0\n\ncommand:  ").length = 42
      ∧ (cstr "Welcome to Command Server V1.0\n\ncommand:  " ++ List.replicate 470 0).length
          = 512 := by
  have hpay : (strncpy w.sendbuf (cstr welcomeMsg) BUF_SIZE).take BUF_SIZE
      = cstr "Welcome to Command Server V1.0\n\ncommand:  " ++ List.replicate 470 0 := by
    rw [take_size_strncpy _ _ _ welcomeMsg_nonzero (by decide)]
    rfl
  have hev : ∃ tail, (worker asfd peername w greetRes inputs).2.1 =
      Event.stdout "Accepted a connection from %s ...\n" [Arg.str peername] ::
      Event.send asfd
        (cstr "Welcome to Command Server V1.0\n\ncommand:  " ++ List.replicate 470 0) ::
      tail := by
    unfold worker
    simp only [hpay]
    exact ⟨_, rfl⟩
  refine ⟨hev, ?_, by decide, ?_⟩
  · obtain ⟨tail, ht⟩ := hev
    rw [ht]
    rfl
  · rw [List.length_append, List.length_replicate]
    decide

/-! ## The accept loop of command_server_tcp.c and its descriptors -/

/-- An Acceptor iteration whose `fork` succeeds: the parent goes back to
`accept` with the state `accept` left. -/
theorem command_server_tcp_loop_parent (p : CmdProc) (acceptRet cpid : Int) (env : WorkerEnv)
    (rest : List (Int × Int × WorkerEnv)) (h0 : cpid ≠ 0) (h1 : cpid ≠ -1) :
    command_server_tcp_loop p ((acceptRet, cpid, env) :: rest) =
      ((command_server_tcp_loop (command_server_tcp_accept p acceptRet).1 rest).1,
       (command_server_tcp_accept p acceptRet).2 ++ [Event.fork cpid] ++
         (command_server_tcp_loop (command_server_tcp_accept p acceptRet).1 rest).2.1,
       (command_server_tcp_loop (command_server_tcp_accept p acceptRet).1 rest).2.2) := by
  simp [command_server_tcp_loop, command_server_tcp_fork, h0, h1]

/-- An Acceptor iteration whose `fork` fails ends the process. -/
theorem command_server_tcp_loop_forkfail (p : CmdProc) (acceptRet : Int) (env : WorkerEnv)
    (rest : List (Int × Int × WorkerEnv)) :
    (command_server_tcp_loop p ((acceptRet, -1, env) :: rest)).2.2 =
      Status.exited EXIT_FAILURE := by
  simp [command_server_tcp_loop, command_server_tcp_fork]

theorem recvLog_not_close (n : Int) : isClose (recvLog n) = false := by
  unfold recvLog; split <;> rfl

/-- While the Acceptor stays in its loop it closes nothing and keeps every
descriptor it has. -/
theorem acceptor_keeps_descriptors (l : List (Int × Int × WorkerEnv)) (p : CmdProc)
    (hpar : ∀ e ∈ l, e.2.1 ≠ 0)
    (hrun : (command_server_tcp_loop p l).2.2 = Status.running) :
    (∀ fd ∈ p.fds, fd ∈ (command_server_tcp_loop p l).1.fds) ∧
    (∀ e ∈ (command_server_tcp_loop p l).2.1, isClose e = false) := by
  induction l generalizing p with
  | nil =>
    refine ⟨fun fd h => h, ?_⟩
    intro e he
    simp [command_server_tcp_loop] at he
  | cons x xs ih =>
    obtain ⟨a, cpid, env⟩ := x
    have h0 : cpid ≠ 0 := hpar (a, cpid, env) (by simp)
    by_cases h1 : cpid = -1
    · subst h1
      rw [command_server_tcp_loop_forkfail] at hrun
      cases hrun
    · rw [command_server_tcp_loop_parent p a cpid env xs h0 h1] at hrun ⊢
      have ih1 := ih (command_server_tcp_accept p a).1
        (fun e he => hpar e (by simp [he])) hrun
      refine ⟨?_, ?_⟩
      · intro fd hfd
        apply ih1.1
        simp only [command_server_tcp_accept, openFd]
        split
        · exact hfd
        · exact List.mem_cons_of_mem _ hfd
      · intro e he
        simp only [List.mem_append, List.mem_singleton] at he
        rcases he with (he | he) | he
        · simp only [command_server_tcp_accept, List.mem_cons] at he
          rcases he with rfl | he
          · rfl
          · split at he
            · simp only [List.mem_singleton] at he
              subst he; rfl
            · simp at he
        · subst he; rfl
        · exact ih1.2 e he

/-- C6 (what the code does). After a successful `accept` the Acceptor keeps
the accepted descriptor for as long as it runs: on every path that stays in the
parent (no `fork` value `0`) and is still in the loop, the descriptor returned
by the first `accept` is still in the parent's descriptor table and the parent
has called no `close` at all; so when the worker of that connection has exited
on `Q` (and holds no descriptor), the connection is still held open by the
Acceptor. -/
theorem C6_acceptor_retains_connection (p : CmdProc) (asfd cpid : Int) (env : WorkerEnv)
    (rest : List (Int × Int × WorkerEnv))
    (hacc : asfd ≠ -1)
    (hpar : ∀ e ∈ (asfd, cpid, env) :: rest, e.2.1 ≠ 0)
    (hrun : (command_server_tcp_loop p ((asfd, cpid, env) :: rest)).2.2 = Status.running) :
    asfd ∈ (command_server_tcp_loop p ((asfd, cpid, env) :: rest)).1.fds
    ∧ (∀ e ∈ (command_server_tcp_loop p ((asfd, cpid, env) :: rest)).2.1, isClose e = false)
    ∧ (∀ (wenv : WorkerEnv) (c : Nat),
        (command_server_tcp_fork (command_server_tcp_accept p asfd).1 0 wenv).2.2
            = Status.exited c →
        (command_server_tcp_fork (command_server_tcp_accept p asfd).1 0 wenv).1.fds = []) := by
  have hkeep := acceptor_keeps_descriptors ((asfd, cpid, env) :: rest) p hpar hrun
  refine ⟨?_, hkeep.2, ?_⟩
  · have h0 : cpid ≠ 0 := hpar (asfd, cpid, env) (by simp)
    have h1 : cpid ≠ -1 := by
      intro h
      subst h
      rw [command_server_tcp_loop_forkfail] at hrun
      cases hrun
    rw [command_server_tcp_loop_parent p asfd cpid env rest h0 h1] at hrun ⊢
    apply (acceptor_keeps_descriptors rest (command_server_tcp_accept p asfd).1
      (fun e he => hpar e (by simp [he])) hrun).1
    simp [command_server_tcp_accept, openFd, hacc]
  · intro wenv c hc
    unfold command_server_tcp_fork at hc ⊢
    simp only [show ¬ ((0 : Int) = -1) by decide, if_false, if_true] at hc ⊢
    rcases hw : worker (command_server_tcp_accept p asfd).1.asfd wenv.peername
        (command_server_tcp_accept p asfd).1.w wenv.greetRes wenv.inputs with ⟨w1, evs, st⟩
    rw [hw] at hc
    cases st with
    | running => exact Status.noConfusion hc
    | exited c1 => rfl

/-- C6, at a concrete run: the listener is descriptor 3, `accept` returns 4,
the worker reads `Q` and exits; the Acceptor goes on to another `accept` that
returns 5.  Descriptor 4 is still open in the Acceptor. -/
theorem C6_acceptor_retains_connection_witness :
    (command_server_tcp_fork
        (command_server_tcp_accept ⟨[3], 3, 0, ⟨[], [], 0, 0⟩⟩ 4).1 0
        ⟨"127.0.0.1", 512, [(RecvResult.data [81, 10], 10)]⟩).2.2
      = Status.exited EXIT_SUCCESS
    ∧ (command_server_tcp_loop ⟨[3], 3, 0, ⟨[], [], 0, 0⟩⟩
        [(4, 1001, ⟨"", 0, []⟩), (5, 1002, ⟨"", 0, []⟩)]).1.fds = [5, 4, 3]
    ∧ (4 : Int) ∈ (command_server_tcp_loop ⟨[3], 3, 0, ⟨[], [], 0, 0⟩⟩
        [(4, 1001, ⟨"", 0, []⟩), (5, 1002, ⟨"", 0, []⟩)]).1.fds :=
  ⟨by decide, by decide,
    (C6_acceptor_retains_connection ⟨[3], 3, 0, ⟨[], [], 0, 0⟩⟩ 4 1001 ⟨"", 0, []⟩
      [(5, 1002, ⟨"", 0, []⟩)] (by decide) (by decide) (by decide)).1⟩

/-! ## The usage check of the four programs -/

theorem simple_server_bind_no_usage (l : List (Int × Int × Int)) :
    ∀ e ∈ (simple_server_bind l).1, isUsageMessage e = false := by
  induction l with
  | nil => intro e he; simp [simple_server_bind] at he
  | cons x xs ih =>
    obtain ⟨port, sfd, b⟩ := x
    intro e he
    unfold simple_server_bind at he
    split at he
    · simp only [List.mem_cons] at he
      rcases he with rfl | he
      · rfl
      · exact ih e he
    · split at he
      · simp only [List.mem_cons, List.mem_singleton, List.not_mem_nil, or_false] at he
        rcases he with rfl | rfl <;> rfl
      · simp only [List.mem_append, List.mem_cons, List.mem_singleton, List.not_mem_nil,
          or_false] at he
        rcases he with (rfl | rfl | rfl) | he
        · rfl
        · rfl
        · rfl
        · exact ih e he

theorem tcp_startup_no_usage (argv : List String) (env : StartEnv) (h : argv.length = 2) :
    (∀ e ∈ (command_server_tcp_startup argv env).1, isUsageMessage e = false) ∧
    (∀ e ∈ (simple_server_tcp_startup argv env).1, isUsageMessage e = false) ∧
    (∀ e ∈ (simpler_server_startup argv env).1, isUsageMessage e = false) := by
  refine ⟨?_, ?_, ?_⟩
  · intro e he
    unfold command_server_tcp_startup at he
    simp only [h, ne_eq, not_true_eq_false, if_false] at he
    repeat' split at he
    all_goals
      simp only [List.mem_cons, List.mem_singleton, List.not_mem_nil, or_false] at he
      rcases he with rfl | rfl | rfl | rfl | rfl | rfl | rfl <;> rfl
  · intro e he
    unfold simple_server_tcp_startup at he
    simp only [h, ne_eq, not_true_eq_false, if_false] at he
    repeat' split at he
    all_goals
      simp only [List.mem_cons, List.mem_singleton, List.not_mem_nil, or_false] at he
      rcases he with rfl | rfl | rfl | rfl | rfl | rfl <;> rfl
  · intro e he
    unfold simpler_server_startup at he
    simp only [h, ne_eq, not_true_eq_false, if_false] at he
    repeat' split at he
    all_goals
      simp only [List.mem_cons, List.mem_singleton, List.not_mem_nil, or_false] at he
      rcases he with rfl | rfl | rfl | rfl | rfl <;> rfl

theorem udp_startup_no_usage (argv : List String) (aenv : AddrEnv) (h : argv.length = 2) :
    ∀ e ∈ (simple_server_startup argv aenv).1, isUsageMessage e = false := by
  intro e he
  unfold simple_server_startup at he
  simp only [h, ne_eq, not_true_eq_false, if_false] at he
  split at he
  · simp only [List.mem_cons, List.mem_singleton, List.not_mem_nil, or_false] at he
    rcases he with rfl | rfl | rfl <;> rfl
  · have hb := simple_server_bind_no_usage aenv.entries
    rcases hbind : simple_server_bind aenv.entries with ⟨evs, res⟩
    rw [hbind] at he hb
    cases res with
    | none =>
      simp only [List.mem_cons, List.mem_append, List.mem_singleton, List.not_mem_nil,
        or_false] at he
      rcases he with (rfl | he) | rfl | rfl
      · rfl
      · exact hb e he
      · rfl
      · rfl
    | some sfd =>
      simp only [List.mem_cons, List.mem_append, List.mem_singleton, List.not_mem_nil,
        or_false] at he
      rcases he with (rfl | he) | rfl
      · rfl
      · exact hb e he
      · rfl

/-- C7. Each of the four programs, started with an argument count other than
two (the program name and one argument), does exactly this: it writes
`Usage: %s port` with `argv[0]` to standard error and exits with
`EXIT_FAILURE`, which is not zero; no socket is created and the start-up does
not reach its loop.  With an argument count of two no event of the start-up is
the usage message. -/
theorem C7_usage_exit (argv : List String) (env : StartEnv) (aenv : AddrEnv) :
    (argv.length ≠ 2 →
        command_server_tcp_startup argv env =
          ([Event.stderr "Usage: %s port\n" [argv0 argv], Event.terminate EXIT_FAILURE], none)
      ∧ simple_server_tcp_startup argv env =
          ([Event.stderr "Usage: %s port\n" [argv0 argv], Event.terminate EXIT_FAILURE], none)
      ∧ simple_server_startup argv aenv =
          ([Event.stderr "Usage: %s port\n" [argv0 argv], Event.terminate EXIT_FAILURE], none)
      ∧ simpler_server_startup argv env =
          ([Event.stderr "Usage: %s port\n" [argv0 argv], Event.terminate EXIT_FAILURE], none)
      ∧ EXIT_FAILURE ≠ 0
      ∧ (∀ e ∈ [Event.stderr "Usage: %s port\n" [argv0 argv], Event.terminate EXIT_FAILURE],
          isSocketCall e = false))
    ∧ (argv.length = 2 →
        (∀ e ∈ (command_server_tcp_startup argv env).1, isUsageMessage e = false)
      ∧ (∀ e ∈ (simple_server_tcp_startup argv env).1, isUsageMessage e = false)
      ∧ (∀ e ∈ (simple_server_startup argv aenv).1, isUsageMessage e = false)
      ∧ (∀ e ∈ (simpler_server_startup argv env).1, isUsageMessage e = false)) := by
  refine ⟨fun h => ⟨?_, ?_, ?_, ?_, by decide, ?_⟩, fun h => ?_⟩
  · simp [command_server_tcp_startup, h, usageExit]
  · simp [simple_server_tcp_startup, h, usageExit]
  · simp [simple_server_startup, h, usageExit]
  · simp [simpler_server_startup, h, usageExit]
  · intro e he
    simp only [List.mem_cons, List.mem_singleton, List.not_mem_nil, or_false] at he
    rcases he with rfl | rfl <;> rfl
  · obtain ⟨h1, h2, h3⟩ := tcp_startup_no_usage argv env h
    exact ⟨h1, h2, udp_startup_no_usage argv aenv h, h3⟩

/-- C7, at concrete command lines: no argument, and the port `8080`. -/
theorem C7_usage_exit_witness :
    command_server_tcp_startup ["command_server_tcp"] ⟨0, 3, 0, 0, 0⟩ =
        ([Event.stderr "Usage: %s port\n" [Arg.str "command_server_tcp"],
          Event.terminate 1], none)
    ∧ (∀ e ∈ (command_server_tcp_startup ["command_server_tcp", "8080"]
          ⟨8080, 3, 0, 0, 0⟩).1, isUsageMessage e = false) :=
  ⟨((C7_usage_exit ["command_server_tcp"] ⟨0, 3, 0, 0, 0⟩ ⟨0, "", []⟩).1 (by decide)).1,
   ((C7_usage_exit ["command_server_tcp", "8080"] ⟨8080, 3, 0, 0, 0⟩ ⟨0, "", []⟩).2
      (by decide)).1⟩

/-! ## The UDP echo loops -/

theorem sendtoCalls_append (xs ys : List Event) :
    sendtoCalls (xs ++ ys) = sendtoCalls xs ++ sendtoCalls ys := by
  induction xs with
  | nil => rfl
  | cons e xs ih => cases e <;> simp [sendtoCalls, ih]

theorem udp_iters_agree (sfd : Int) (st : UdpState) (r : RecvFromResult) (ni : NameInfo)
    (sendtoRet : Int) :
    simple_server_iter sfd st r ni sendtoRet = simpler_server_iter sfd st r ni sendtoRet := by
  cases r <;> rfl

theorem udp_loops_agree (sfd : Int) (st : UdpState)
    (inputs : List (RecvFromResult × NameInfo × Int)) :
    simple_server_loop sfd st inputs = simpler_server_loop sfd st inputs := by
  induction inputs generalizing st with
  | nil => rfl
  | cons x xs ih =>
    obtain ⟨r, ni, sr⟩ := x
    simp only [simple_server_loop, simpler_server_loop, udp_iters_agree, ih]

/-- C8. In the loop of simple_server and of simpler_server, an iteration whose
`recvfrom` delivers a datagram makes exactly one `sendto`: its payload is the
bytes just stored in the buffer (the datagram, cut to at most 512 bytes), its
destination address and address length are the ones `recvfrom` reported; an
iteration whose `recvfrom` fails makes no `sendto` (its only event is the
`recvfrom`) and the loop goes on with the next `recvfrom`; and the two
programs produce the same state and trace on every sequence of inputs. -/
theorem C8_udp_echo (sfd : Int) (st : UdpState) (bytes addr : List Nat) (addrlen : Nat)
    (ni : NameInfo) (sendtoRet : Int)
    (rest : List (RecvFromResult × NameInfo × Int)) :
    sendtoCalls (simple_server_iter sfd st
        (RecvFromResult.datagram bytes addr addrlen) ni sendtoRet).2
      = [Event.sendto sfd (bytes.take BUF_SIZE) addr addrlen]
    ∧ (simple_server_iter sfd st
        (RecvFromResult.datagram bytes addr addrlen) ni sendtoRet).1.nread
      = ((bytes.take BUF_SIZE).length : Nat)
    ∧ (bytes.take BUF_SIZE).length ≤ 512
    ∧ ((simple_server_iter sfd st
        (RecvFromResult.datagram bytes addr addrlen) ni sendtoRet).1.buf).take
          (bytes.take BUF_SIZE).length = bytes.take BUF_SIZE
    ∧ (bytes.length ≤ 512 → bytes.take BUF_SIZE = bytes)
    ∧ (simple_server_iter sfd st RecvFromResult.error ni sendtoRet).2
      = [Event.recvfrom sfd BUF_SIZE]
    ∧ (simple_server_loop sfd st ((RecvFromResult.error, ni, sendtoRet) :: rest)).2
      = Event.recvfrom sfd BUF_SIZE ::
          (simple_server_loop sfd
            (simple_server_iter sfd st RecvFromResult.error ni sendtoRet).1 rest).2
    ∧ (∀ (r : RecvFromResult),
        simpler_server_iter sfd st r ni sendtoRet = simple_server_iter sfd st r ni sendtoRet)
    ∧ (∀ (inputs : List (RecvFromResult × NameInfo × Int)),
        simpler_server_loop sfd st inputs = simple_server_loop sfd st inputs) := by
  have htake : ((bytes.take BUF_SIZE) ++ st.buf.drop (bytes.take BUF_SIZE).length).take
      (bytes.take BUF_SIZE).length = bytes.take BUF_SIZE := by
    rw [List.take_append_of_le_length (Nat.le_refl _)]
    exact List.take_of_length_le (Nat.le_refl _)
  refine ⟨?_, rfl, ?_, htake, ?_, rfl, rfl, ?_, ?_⟩
  · simp only [simple_server_iter, sendtoCalls_append, htake]
    have hlog : sendtoCalls [Event.recvfrom sfd BUF_SIZE,
          (if ni.ret = 0 then Event.stdout "Received %ld bytes from %s:%s\n"
              [Arg.int ((bytes.take BUF_SIZE).length : Nat), Arg.str ni.host,
               Arg.str ni.service]
           else Event.stderr "getnameinfo: %s\n" [Arg.str ni.errtext]),
          Event.sendto sfd (bytes.take BUF_SIZE) addr addrlen]
        = [Event.sendto sfd (bytes.take BUF_SIZE) addr addrlen] := by
      split <;> rfl
    rw [hlog]
    split <;> rfl
  · rw [List.length_take]
    exact Nat.min_le_left _ _
  · intro h
    exact List.take_of_length_le h
  · intro r
    exact (udp_iters_agree sfd st r ni sendtoRet).symm
  · intro inputs
    exact (udp_loops_agree sfd st inputs).symm

/-! ## simple_server_tcp.c: what the worker does with a connection -/

theorem simple_server_tcp_fork_buf (p : EchoProc) (forkRet : Int) (peername : String)
    (sendRet : Int) :
    (simple_server_tcp_fork p forkRet peername sendRet).1.buf = p.buf ∧
    (∀ e ∈ (simple_server_tcp_fork p forkRet peername sendRet).2, isRecv e = false) := by
  unfold simple_server_tcp_fork
  split
  · refine ⟨rfl, ?_⟩
    intro e he
    simp only [List.mem_cons, List.mem_append, List.mem_singleton, List.not_mem_nil,
      or_false] at he
    rcases he with (rfl | rfl | rfl) | he
    · rfl
    · rfl
    · rfl
    · split at he
      · simp only [List.mem_singleton] at he
        subst he; rfl
      · simp at he
  · refine ⟨rfl, ?_⟩
    intro e he
    simp only [List.mem_singleton] at he
    subst he; rfl

theorem simple_server_tcp_accept_buf (p : EchoProc) (acceptRet : Int) (peername : String) :
    (simple_server_tcp_accept p acceptRet peername).1.buf = p.buf ∧
    (∀ e ∈ (simple_server_tcp_accept p acceptRet peername).2.1, isRecv e = false) := by
  unfold simple_server_tcp_accept
  split
  · refine ⟨rfl, ?_⟩
    intro e he
    simp only [List.mem_cons, List.mem_singleton, List.not_mem_nil, or_false] at he
    rcases he with rfl | rfl <;> rfl
  · refine ⟨rfl, ?_⟩
    intro e he
    simp only [List.mem_cons, List.mem_singleton, List.not_mem_nil, or_false] at he
    rcases he with rfl | rfl <;> rfl

theorem simple_server_tcp_iter_buf (p : EchoProc) (env : EchoEnv) :
    (simple_server_tcp_iter p env).1.buf = p.buf ∧
    (∀ e ∈ (simple_server_tcp_iter p env).2, isRecv e = false) := by
  have ha := simple_server_tcp_accept_buf p env.acceptRet env.peername
  unfold simple_server_tcp_iter
  rcases hacc : simple_server_tcp_accept p env.acceptRet env.peername with ⟨p1, evs1, go⟩
  rw [hacc] at ha
  cases go with
  | false => exact ha
  | true =>
    have hf := simple_server_tcp_fork_buf p1 env.forkRet env.peername env.sendRet
    refine ⟨hf.1.trans ha.1, ?_⟩
    intro e he
    simp only [List.mem_append] at he
    rcases he with he | he
    · exact ha.2 e he
    · exact hf.2 e he

/-- C9 (what the code does). No process of simple_server_tcp ever calls
`recv`, and none writes `buf`: on every path of the process tree and every
sequence of answers, the trace holds no `recv` and `buf` is what it was at
start-up.  The worker of a connection (the process in which `fork` returned
`0`) closes the listening descriptor and makes one `send` of the 512 bytes of
that never-written buffer, whatever the client sent. -/
theorem C9_tcp_worker_never_reads (p : EchoProc) (envs : List EchoEnv)
    (peername : String) (sendRet : Int) :
    (∀ e ∈ (simple_server_tcp_loop p envs).2, isRecv e = false)
    ∧ (simple_server_tcp_loop p envs).1.buf = p.buf
    ∧ connOps (simple_server_tcp_fork p 0 peername sendRet).2
        = [Event.send p.asfd (p.buf.take BUF_SIZE)] := by
  refine ⟨?_, ?_, ?_⟩
  · induction envs generalizing p with
    | nil => intro e he; simp [simple_server_tcp_loop] at he
    | cons env rest ih =>
      intro e he
      simp only [simple_server_tcp_loop, List.mem_append] at he
      rcases he with he | he
      · exact (simple_server_tcp_iter_buf p env).2 e he
      · exact ih _ e he
  · induction envs generalizing p with
    | nil => rfl
    | cons env rest ih =>
      simp only [simple_server_tcp_loop]
      rw [ih, (simple_server_tcp_iter_buf p env).1]
  · unfold simple_server_tcp_fork
    simp only [if_true]
    split <;> rfl

/-- C9, at a concrete connection: the buffer holds the bytes 1, 2, 3 left on
the stack; the worker of the connection on descriptor 4 sends them and reads
nothing. -/
theorem C9_tcp_worker_never_reads_witness :
    (simple_server_tcp_loop ⟨[3], 3, 0, [1, 2, 3]⟩ [⟨4, "127.0.0.1", 0, 512⟩]).2
      = [Event.accept 3 4,
         Event.stdout "Accepted a connection from %s ...\n" [Arg.str "127.0.0.1"],
         Event.fork 0, Event.close 3, Event.send 4 [1, 2, 3],
         Event.stderr "Could not send to peer %s ...\n" [Arg.str "127.0.0.1"]]
    ∧ (∀ e ∈ (simple_server_tcp_loop ⟨[3], 3, 0, [1, 2, 3]⟩ [⟨4, "127.0.0.1", 0, 512⟩]).2,
        isRecv e = false) :=
  ⟨by decide,
   (C9_tcp_worker_never_reads ⟨[3], 3, 0, [1, 2, 3]⟩ [⟨4, "127.0.0.1", 0, 512⟩]
      "127.0.0.1" 512).1⟩

/-! ## The session as a state machine -/

theorem sessionIter_status (asfd : Int) (w : Worker) (r : RecvResult) (sres : Int) :
    (sessionIter asfd w r sres).2.2 =
      (if (recvStore w.readbuf BUF_SIZE r).getD 0 0 = 'Q'.toNat
       then Status.exited EXIT_SUCCESS else Status.running) ∧
    (sessionIter asfd w r sres).1.readbuf = recvStore w.readbuf BUF_SIZE r := by
  by_cases hH : (recvStore w.readbuf BUF_SIZE r).getD 0 0 = 'H'.toNat
  · rw [sessionIter_H asfd w r sres hH, hH, if_neg (by decide)]
    exact ⟨rfl, rfl⟩
  · by_cases hC : (recvStore w.readbuf BUF_SIZE r).getD 0 0 = 'C'.toNat
    · rw [sessionIter_C asfd w r sres hC, hC, if_neg (by decide)]
      exact ⟨rfl, rfl⟩
    · by_cases hQ : (recvStore w.readbuf BUF_SIZE r).getD 0 0 = 'Q'.toNat
      · rw [sessionIter_Q asfd w r sres hQ, hQ, if_pos rfl]
        exact ⟨rfl, rfl⟩
      · rw [sessionIter_default asfd w r sres hH hC hQ, if_neg hQ]
        exact ⟨rfl, rfl⟩

set_option maxRecDepth 8192 in
/-- C10 as stated fails: the buffer holds an earlier `H`, the peer closes and
`recv` returns 0 bytes; the dispatched byte is the stale `H`, the help text is
sent again and the session is still in its loop. -/
theorem C10_counterexample :
    recvCount BUF_SIZE (RecvResult.data []) = 0
    ∧ ¬ ((sessionIter 4 ⟨[72, 10], [], 2, 95⟩ (RecvResult.data []) 95).2.2
          = Status.exited EXIT_SUCCESS ↔
        ((recvStore [72, 10] BUF_SIZE (RecvResult.data [])).getD 0 0 = 'Q'.toNat
          ∨ recvCount BUF_SIZE (RecvResult.data []) = 0))
    ∧ (session 4 ⟨[], [], 0, 0⟩
        [(RecvResult.data [72, 10], 95), (RecvResult.data [], 95)]).2.2 = Status.running
    ∧ sentPayloads (session 4 ⟨[], [], 0, 0⟩
        [(RecvResult.data [72, 10], 95), (RecvResult.data [], 95)]).2.1
        = [cstr helpMsg, cstr helpMsg] := by
  decide

/-- C10 (amended). The session has the two states `running` (awaiting a
command) and `exited`.  An iteration ends in `exited`, with `EXIT_SUCCESS`,
exactly when the dispatched byte, the first byte of the read buffer after the
`recv` whatever that `recv` returned, is `Q`, and in `running` otherwise; a
`recv` of 0 bytes or a failed `recv` leaves the buffer as it was.  Over every
sequence of read results the session ends in `exited` exactly when some
dispatched byte is `Q`. -/
theorem C10_terminated_iff_Q (asfd : Int) (w : Worker) (r : RecvResult) (sres : Int)
    (inputs : List (RecvResult × Int)) :
    ((sessionIter asfd w r sres).2.2 = Status.exited EXIT_SUCCESS ↔
        (recvStore w.readbuf BUF_SIZE r).getD 0 0 = 'Q'.toNat)
    ∧ ((sessionIter asfd w r sres).2.2 = Status.running ↔
        (recvStore w.readbuf BUF_SIZE r).getD 0 0 ≠ 'Q'.toNat)
    ∧ recvStore w.readbuf BUF_SIZE (RecvResult.data []) = w.readbuf
    ∧ recvStore w.readbuf BUF_SIZE RecvResult.error = w.readbuf
    ∧ ((session asfd w inputs).2.2 = Status.exited EXIT_SUCCESS ↔
        'Q'.toNat ∈ dispatched w.readbuf (inputs.map Prod.fst))
    ∧ ((session asfd w inputs).2.2 = Status.running ↔
        'Q'.toNat ∉ dispatched w.readbuf (inputs.map Prod.fst)) := by
  have hstep : ∀ (w : Worker) (r : RecvResult) (sres : Int),
      ((sessionIter asfd w r sres).2.2 = Status.exited EXIT_SUCCESS ↔
        (recvStore w.readbuf BUF_SIZE r).getD 0 0 = 'Q'.toNat)
      ∧ ((sessionIter asfd w r sres).2.2 = Status.running ↔
        (recvStore w.readbuf BUF_SIZE r).getD 0 0 ≠ 'Q'.toNat) := by
    intro w r sres
    rw [(sessionIter_status asfd w r sres).1]
    by_cases hQ : (recvStore w.readbuf BUF_SIZE r).getD 0 0 = 'Q'.toNat
    · rw [if_pos hQ]
      exact ⟨⟨fun _ => hQ, fun _ => rfl⟩, ⟨fun h => Status.noConfusion h, fun h => absurd hQ h⟩⟩
    · rw [if_neg hQ]
      exact ⟨⟨fun h => Status.noConfusion h, fun h => absurd h hQ⟩, ⟨fun _ => hQ, fun _ => rfl⟩⟩
  have hall : ∀ (inputs : List (RecvResult × Int)) (w : Worker),
      ((session asfd w inputs).2.2 = Status.exited EXIT_SUCCESS ↔
        'Q'.toNat ∈ dispatched w.readbuf (inputs.map Prod.fst))
      ∧ ((session asfd w inputs).2.2 = Status.running ↔
        'Q'.toNat ∉ dispatched w.readbuf (inputs.map Prod.fst)) := by
    intro inputs
    induction inputs with
    | nil =>
      intro w
      simp [session, dispatched]
    | cons x xs ih =>
      intro w
      obtain ⟨r1, s1⟩ := x
      have hst := sessionIter_status asfd w r1 s1
      by_cases hQ : (recvStore w.readbuf BUF_SIZE r1).getD 0 0 = 'Q'.toNat
      · have hex : (sessionIter asfd w r1 s1).2.2 = Status.exited EXIT_SUCCESS := by
          rw [hst.1, if_pos hQ]
        rw [session_cons_exited asfd w r1 s1 xs EXIT_SUCCESS hex, hex]
        simp only [List.map_cons, dispatched, List.mem_cons]
        exact ⟨⟨fun _ => Or.inl hQ.symm, fun _ => trivial⟩,
          ⟨fun h => (by cases h), fun h => absurd (Or.inl hQ.symm) h⟩⟩
      · have hrun : (sessionIter asfd w r1 s1).2.2 = Status.running := by
          rw [hst.1, if_neg hQ]
        rw [session_cons_running asfd w r1 s1 xs hrun]
        have ih1 := ih (sessionIter asfd w r1 s1).1
        rw [hst.2] at ih1
        have hne : ¬ ('Q'.toNat = (recvStore w.readbuf BUF_SIZE r1).getD 0 0) :=
          fun h => hQ h.symm
        simp only [List.map_cons, dispatched, List.mem_cons, hne, false_or]
        exact ih1
  refine ⟨(hstep w r sres).1, (hstep w r sres).2, ?_, rfl, (hall inputs w).1,
    (hall inputs w).2⟩
  simp [recvStore]

/-! ## Read and write errors in the command loop -/

theorem connOps_append (xs ys : List Event) :
    connOps (xs ++ ys) = connOps xs ++ connOps ys := by
  induction xs with
  | nil => rfl
  | cons e xs ih => cases e <;> simp [connOps, ih]

/-- The payload an iteration sends is decided by the dispatched byte alone. -/
theorem sessionIter_payload_congr (asfd asfd1 : Int) (w w1 : Worker) (r r1 : RecvResult)
    (s s1 : Int)
    (h : (recvStore w.readbuf BUF_SIZE r).getD 0 0 = (recvStore w1.readbuf BUF_SIZE r1).getD 0 0) :
    sentPayloads (sessionIter asfd w r s).2.1 = sentPayloads (sessionIter asfd1 w1 r1 s1).2.1 := by
  by_cases hH : (recvStore w.readbuf BUF_SIZE r).getD 0 0 = 'H'.toNat
  · rw [sessionIter_H asfd w r s hH, sessionIter_H asfd1 w1 r1 s1 (h ▸ hH)]
    simp only [sentPayloads, sentPayloads_recvLog, sentPayloads_sendLog]
  · by_cases hC : (recvStore w.readbuf BUF_SIZE r).getD 0 0 = 'C'.toNat
    · rw [sessionIter_C asfd w r s hC, sessionIter_C asfd1 w1 r1 s1 (h ▸ hC)]
      simp only [sentPayloads, sentPayloads_recvLog, sentPayloads_sendLog]
    · by_cases hQ : (recvStore w.readbuf BUF_SIZE r).getD 0 0 = 'Q'.toNat
      · rw [sessionIter_Q asfd w r s hQ, sessionIter_Q asfd1 w1 r1 s1 (h ▸ hQ)]
        simp only [sentPayloads, sentPayloads_recvLog, sentPayloads_sendLog]
      · rw [sessionIter_default asfd w r s hH hC hQ,
          sessionIter_default asfd1 w1 r1 s1 (h ▸ hH) (h ▸ hC) (h ▸ hQ)]
        simp only [sentPayloads, sentPayloads_recvLog, sentPayloads_sendLog]

/-- Every iteration sends exactly one payload. -/
theorem sessionIter_one_payload (asfd : Int) (w : Worker) (r : RecvResult) (s : Int) :
    ∃ p, sentPayloads (sessionIter asfd w r s).2.1 = [p] := by
  by_cases hH : (recvStore w.readbuf BUF_SIZE r).getD 0 0 = 'H'.toNat
  · rw [sessionIter_H asfd w r s hH]
    exact ⟨cstr helpMsg, by simp only [sentPayloads, sentPayloads_recvLog, sentPayloads_sendLog]⟩
  · by_cases hC : (recvStore w.readbuf BUF_SIZE r).getD 0 0 = 'C'.toNat
    · rw [sessionIter_C asfd w r s hC]
      exact ⟨cstr commandMsg,
        by simp only [sentPayloads, sentPayloads_recvLog, sentPayloads_sendLog]⟩
    · by_cases hQ : (recvStore w.readbuf BUF_SIZE r).getD 0 0 = 'Q'.toNat
      · rw [sessionIter_Q asfd w r s hQ]
        exact ⟨cstr goodbyeMsg,
          by simp only [sentPayloads, sentPayloads_recvLog, sentPayloads_sendLog]⟩
      · rw [sessionIter_default asfd w r s hH hC hQ]
        exact ⟨cstr invalidMsg,
          by simp only [sentPayloads, sentPayloads_recvLog, sentPayloads_sendLog]⟩

/-- The first two events of an iteration whose `recv` fails. -/
theorem sessionIter_error_events (asfd : Int) (w : Worker) (s : Int) :
    ∃ tail, (sessionIter asfd w RecvResult.error s).2.1 =
      Event.recv asfd BUF_SIZE :: Event.stderr "Could not read from client\n" [] :: tail := by
  by_cases hH : (recvStore w.readbuf BUF_SIZE RecvResult.error).getD 0 0 = 'H'.toNat
  · rw [sessionIter_H asfd w _ s hH]
    exact ⟨_, rfl⟩
  · by_cases hC : (recvStore w.readbuf BUF_SIZE RecvResult.error).getD 0 0 = 'C'.toNat
    · rw [sessionIter_C asfd w _ s hC]
      exact ⟨_, rfl⟩
    · by_cases hQ : (recvStore w.readbuf BUF_SIZE RecvResult.error).getD 0 0 = 'Q'.toNat
      · rw [sessionIter_Q asfd w _ s hQ]
        exact ⟨_, rfl⟩
      · rw [sessionIter_default asfd w _ s hH hC hQ]
        exact ⟨_, rfl⟩

/-- A run of failed reads on a buffer whose first byte is not `Q`: the same
payload every time, and the loop goes on. -/
theorem session_read_errors (asfd : Int) (p : List Nat) (errs : List Int) (w : Worker)
    (hp : sentPayloads (sessionIter asfd w RecvResult.error 0).2.1 = [p])
    (hq : w.readbuf.getD 0 0 ≠ 'Q'.toNat) :
    sentPayloads (session asfd w (errs.map (fun s => (RecvResult.error, s)))).2.1
      = List.replicate errs.length p
    ∧ (session asfd w (errs.map (fun s => (RecvResult.error, s)))).2.2 = Status.running := by
  induction errs generalizing w with
  | nil => exact ⟨rfl, rfl⟩
  | cons s ss ih =>
    have hst := sessionIter_status asfd w RecvResult.error s
    have hbuf : recvStore w.readbuf BUF_SIZE RecvResult.error = w.readbuf := rfl
    rw [hbuf] at hst
    have hrun : (sessionIter asfd w RecvResult.error s).2.2 = Status.running := by
      rw [hst.1, if_neg hq]
    have hps : sentPayloads (sessionIter asfd w RecvResult.error s).2.1 = [p] := by
      rw [← hp]
      exact sessionIter_payload_congr _ _ _ _ _ _ _ _ rfl
    have hp1 : sentPayloads
        (sessionIter asfd (sessionIter asfd w RecvResult.error s).1 RecvResult.error 0).2.1
        = [p] := by
      rw [← hp]
      apply sessionIter_payload_congr
      show (sessionIter asfd w RecvResult.error s).1.readbuf.getD 0 0 = w.readbuf.getD 0 0
      rw [hst.2]
    have ih1 := ih (sessionIter asfd w RecvResult.error s).1 hp1 (by rw [hst.2]; exact hq)
    simp only [List.map_cons, List.length_cons]
    rw [session_cons_running asfd w RecvResult.error s _ hrun]
    refine ⟨?_, ih1.2⟩
    simp only [sentPayloads_append, ih1.1, hps]
    rfl

/-- C11. When `recv` returns -1 in an iteration that follows one that stayed
in the loop: the iteration logs `Could not read from client` right after the
`recv`, it stays in the loop, the buffer is untouched, the dispatched byte is
the byte the earlier iteration dispatched (the first byte of the data of that
earlier read when it delivered any), and the payload sent is the payload the
earlier iteration sent; so does every one of a run of failed reads.  On any
state, the first one included, a failed read leaves the buffer as it is, so
the first byte of the buffer as it stands is what is dispatched. -/
theorem C11_read_error_dispatches_stale (asfd : Int) (w0 : Worker) (r0 : RecvResult)
    (s0 sres : Int) (errs : List Int)
    (hrun : (sessionIter asfd w0 r0 s0).2.2 = Status.running) :
    recvCount BUF_SIZE RecvResult.error = -1
    ∧ (∃ tail, (sessionIter asfd (sessionIter asfd w0 r0 s0).1 RecvResult.error sres).2.1 =
        Event.recv asfd BUF_SIZE :: Event.stderr "Could not read from client\n" [] :: tail)
    ∧ (sessionIter asfd (sessionIter asfd w0 r0 s0).1 RecvResult.error sres).2.2
        = Status.running
    ∧ (recvStore (sessionIter asfd w0 r0 s0).1.readbuf BUF_SIZE RecvResult.error).getD 0 0
        = (recvStore w0.readbuf BUF_SIZE r0).getD 0 0
    ∧ (∀ (b : Nat) (bs : List Nat), r0 = RecvResult.data (b :: bs) →
        (recvStore (sessionIter asfd w0 r0 s0).1.readbuf BUF_SIZE RecvResult.error).getD 0 0
          = b)
    ∧ sentPayloads (sessionIter asfd (sessionIter asfd w0 r0 s0).1 RecvResult.error sres).2.1
        = sentPayloads (sessionIter asfd w0 r0 s0).2.1
    ∧ (∃ p, sentPayloads (sessionIter asfd w0 r0 s0).2.1 = [p]
        ∧ sentPayloads (session asfd (sessionIter asfd w0 r0 s0).1
            (errs.map (fun s => (RecvResult.error, s)))).2.1 = List.replicate errs.length p)
    ∧ (session asfd (sessionIter asfd w0 r0 s0).1
          (errs.map (fun s => (RecvResult.error, s)))).2.2 = Status.running
    ∧ (∀ (w : Worker), recvStore w.readbuf BUF_SIZE RecvResult.error = w.readbuf) := by
  have hst0 := sessionIter_status asfd w0 r0 s0
  have hq0 : (recvStore w0.readbuf BUF_SIZE r0).getD 0 0 ≠ 'Q'.toNat := by
    intro hq
    rw [hst0.1, if_pos hq] at hrun
    exact Status.noConfusion hrun
  have hbyte : (recvStore (sessionIter asfd w0 r0 s0).1.readbuf BUF_SIZE
      RecvResult.error).getD 0 0 = (recvStore w0.readbuf BUF_SIZE r0).getD 0 0 := by
    show (sessionIter asfd w0 r0 s0).1.readbuf.getD 0 0 = _
    rw [hst0.2]
  have hq1 : (sessionIter asfd w0 r0 s0).1.readbuf.getD 0 0 ≠ 'Q'.toNat := by
    rw [hst0.2]; exact hq0
  have hpay : ∀ s, sentPayloads
      (sessionIter asfd (sessionIter asfd w0 r0 s0).1 RecvResult.error s).2.1
      = sentPayloads (sessionIter asfd w0 r0 s0).2.1 :=
    fun s => sessionIter_payload_congr _ _ _ _ _ _ _ _ hbyte
  obtain ⟨p, hp⟩ := sessionIter_one_payload asfd w0 r0 s0
  have herrs := session_read_errors asfd p errs (sessionIter asfd w0 r0 s0).1
    (by rw [hpay 0, hp]) hq1
  refine ⟨rfl, sessionIter_error_events _ _ _, ?_, hbyte, ?_, hpay sres,
    ⟨p, hp, herrs.1⟩, herrs.2, fun _ => rfl⟩
  · rw [(sessionIter_status asfd _ RecvResult.error sres).1, if_neg]
    rw [hbyte]; exact hq0
  · intro b bs hr
    rw [hbyte, hr]
    exact recvStore_data_cons _ _ _

set_option maxRecDepth 8192 in
/-- C11, at a concrete session: `C` is read, then two reads fail; the
`command` text is sent three times.  On a first iteration whose read fails
the stack bytes decide: a buffer starting with `H` gets the help text, one
starting with `X` the invalid-command text. -/
theorem C11_read_error_dispatches_stale_witness :
    (sessionIter 4 ⟨[], [], 0, 0⟩ (RecvResult.data [67, 10]) 19).2.2 = Status.running
    ∧ sentPayloads (session 4 ⟨[], [], 0, 0⟩
        [(RecvResult.data [67, 10], 19), (RecvResult.error, 19), (RecvResult.error, 19)]).2.1
        = [cstr commandMsg, cstr commandMsg, cstr commandMsg]
    ∧ sentPayloads (sessionIter 4 ⟨[72], [], 0, 0⟩ RecvResult.error 95).2.1 = [cstr helpMsg]
    ∧ sentPayloads (sessionIter 4 ⟨[88], [], 0, 0⟩ RecvResult.error 28).2.1 = [cstr invalidMsg]
    ∧ sentPayloads (sessionIter 4
          (sessionIter 4 ⟨[], [], 0, 0⟩ (RecvResult.data [67, 10]) 19).1
          RecvResult.error 19).2.1
        = sentPayloads (sessionIter 4 ⟨[], [], 0, 0⟩ (RecvResult.data [67, 10]) 19).2.1 :=
  ⟨by decide, by decide, by decide, by decide,
    (C11_read_error_dispatches_stale 4 ⟨[], [], 0, 0⟩ (RecvResult.data [67, 10]) 19 19
      [19, 19] (by decide)).2.2.2.2.2.1⟩

/-- An iteration reads `readbuf` and `sendbuf` only, not the two counters. -/
theorem sessionIter_state_congr (asfd : Int) (w w1 : Worker) (r : RecvResult) (s : Int)
    (hr : w.readbuf = w1.readbuf) (hs : w.sendbuf = w1.sendbuf) :
    sessionIter asfd w r s = sessionIter asfd w1 r s := by
  unfold sessionIter
  rw [hr, hs]

/-- What an iteration does apart from its log line does not depend on what the
response `send` returns. -/
theorem sessionIter_send_independent (asfd : Int) (w : Worker) (r : RecvResult) (s s1 : Int) :
    (sessionIter asfd w r s).2.2 = (sessionIter asfd w r s1).2.2
    ∧ (sessionIter asfd w r s).1.readbuf = (sessionIter asfd w r s1).1.readbuf
    ∧ (sessionIter asfd w r s).1.sendbuf = (sessionIter asfd w r s1).1.sendbuf
    ∧ connOps (sessionIter asfd w r s).2.1 = connOps (sessionIter asfd w r s1).2.1 := by
  by_cases hH : (recvStore w.readbuf BUF_SIZE r).getD 0 0 = 'H'.toNat
  · rw [sessionIter_H asfd w r s hH, sessionIter_H asfd w r s1 hH]
    simp only [connOps, connOps_recvLog, connOps_sendLog, and_self]
  · by_cases hC : (recvStore w.readbuf BUF_SIZE r).getD 0 0 = 'C'.toNat
    · rw [sessionIter_C asfd w r s hC, sessionIter_C asfd w r s1 hC]
      simp only [connOps, connOps_recvLog, connOps_sendLog, and_self]
    · by_cases hQ : (recvStore w.readbuf BUF_SIZE r).getD 0 0 = 'Q'.toNat
      · rw [sessionIter_Q asfd w r s hQ, sessionIter_Q asfd w r s1 hQ]
        simp only [connOps, connOps_recvLog, connOps_sendLog, and_self]
      · rw [sessionIter_default asfd w r s hH hC hQ, sessionIter_default asfd w r s1 hH hC hQ]
        simp only [connOps, connOps_recvLog, connOps_sendLog, and_self]

/-- A session in which every response `send` fails ends in the same state and
performs the same operations on the connection as one in which they return
what they like. -/
theorem session_send_independent (asfd : Int) (inputs : List (RecvResult × Int))
    (w w1 : Worker) (hr : w.readbuf = w1.readbuf) (hs : w.sendbuf = w1.sendbuf) :
    (session asfd w (inputs.map (fun x => (x.1, (-1 : Int))))).2.2 = (session asfd w1 inputs).2.2
    ∧ connOps (session asfd w (inputs.map (fun x => (x.1, (-1 : Int))))).2.1
        = connOps (session asfd w1 inputs).2.1 := by
  induction inputs generalizing w w1 with
  | nil => exact ⟨rfl, rfl⟩
  | cons x xs ih =>
    obtain ⟨r, s⟩ := x
    simp only [List.map_cons]
    have hcong := sessionIter_state_congr asfd w w1 r (-1) hr hs
    have hind := sessionIter_send_independent asfd w1 r (-1) s
    rw [← hcong] at hind
    have hst := sessionIter_status asfd w1 r s
    by_cases hQ : (recvStore w1.readbuf BUF_SIZE r).getD 0 0 = 'Q'.toNat
    · have hex1 : (sessionIter asfd w1 r s).2.2 = Status.exited EXIT_SUCCESS := by
        rw [hst.1, if_pos hQ]
      have hex : (sessionIter asfd w r (-1)).2.2 = Status.exited EXIT_SUCCESS := by
        rw [hind.1, hex1]
      rw [session_cons_exited asfd w r (-1) _ EXIT_SUCCESS hex,
        session_cons_exited asfd w1 r s xs EXIT_SUCCESS hex1]
      exact ⟨hind.1, hind.2.2.2⟩
    · have hrun1 : (sessionIter asfd w1 r s).2.2 = Status.running := by
        rw [hst.1, if_neg hQ]
      have hrun : (sessionIter asfd w r (-1)).2.2 = Status.running := by
        rw [hind.1, hrun1]
      rw [session_cons_running asfd w r (-1) _ hrun,
        session_cons_running asfd w1 r s xs hrun1]
      have ih1 := ih (sessionIter asfd w r (-1)).1 (sessionIter asfd w1 r s).1
        hind.2.1 hind.2.2.1
      refine ⟨ih1.1, ?_⟩
      simp only [connOps_append, ih1.2, hind.2.2.2]

/-- The child branch written out: peer report, greeting, the report of a failed
greeting, then the command loop on the state with the greeting in `sendbuf`. -/
theorem worker_eq (asfd : Int) (peername : String) (w : Worker) (greetRes : Int)
    (inputs : List (RecvResult × Int)) :
    worker asfd peername w greetRes inputs =
      ((session asfd { w with sendbuf := strncpy w.sendbuf (cstr welcomeMsg) BUF_SIZE }
          inputs).1,
       [Event.stdout "Accepted a connection from %s ...\n" [Arg.str peername],
        Event.send asfd ((strncpy w.sendbuf (cstr welcomeMsg) BUF_SIZE).take BUF_SIZE)] ++
        (if greetRes = -1 then [Event.stderr "Could not send header to client\n" []] else []) ++
        (session asfd { w with sendbuf := strncpy w.sendbuf (cstr welcomeMsg) BUF_SIZE }
          inputs).2.1,
       (session asfd { w with sendbuf := strncpy w.sendbuf (cstr welcomeMsg) BUF_SIZE }
          inputs).2.2) := by
  unfold worker
  rfl

/-- C12. A failed `send` ends nothing.  When the greeting `send` returns -1
the worker logs `Could not send header to client` and enters the command loop
on the same state: its trace is the peer report, the greeting `send`, that log
line and then the trace of the session, and it ends in the same status as
with any other return value.  In an iteration the status, the two buffers and
the operations on the connection are the same whether the response `send`
returns -1 or anything else, and the iteration stays in the loop unless the
dispatched byte is `Q`; so does a whole session in which every response `send`
fails. -/
theorem C12_send_failure_nonfatal (asfd : Int) (peername : String) (w : Worker)
    (greetRes : Int) (r : RecvResult) (sres : Int) (inputs : List (RecvResult × Int)) :
    (worker asfd peername w (-1) inputs).2.1 =
        [Event.stdout "Accepted a connection from %s ...\n" [Arg.str peername],
         Event.send asfd ((strncpy w.sendbuf (cstr welcomeMsg) BUF_SIZE).take BUF_SIZE),
         Event.stderr "Could not send header to client\n" []] ++
        (session asfd { w with sendbuf := strncpy w.sendbuf (cstr welcomeMsg) BUF_SIZE }
          inputs).2.1
    ∧ (worker asfd peername w (-1) inputs).2.2 = (worker asfd peername w greetRes inputs).2.2
    ∧ (worker asfd peername w (-1) inputs).1 = (worker asfd peername w greetRes inputs).1
    ∧ (sessionIter asfd w r (-1)).2.2 = (sessionIter asfd w r sres).2.2
    ∧ (sessionIter asfd w r (-1)).1.readbuf = (sessionIter asfd w r sres).1.readbuf
    ∧ (sessionIter asfd w r (-1)).1.sendbuf = (sessionIter asfd w r sres).1.sendbuf
    ∧ connOps (sessionIter asfd w r (-1)).2.1 = connOps (sessionIter asfd w r sres).2.1
    ∧ ((recvStore w.readbuf BUF_SIZE r).getD 0 0 ≠ 'Q'.toNat →
        (sessionIter asfd w r (-1)).2.2 = Status.running)
    ∧ (session asfd w (inputs.map (fun x => (x.1, (-1 : Int))))).2.2
        = (session asfd w inputs).2.2
    ∧ connOps (session asfd w (inputs.map (fun x => (x.1, (-1 : Int))))).2.1
        = connOps (session asfd w inputs).2.1 := by
  have hind := sessionIter_send_independent asfd w r (-1) sres
  have hses := session_send_independent asfd inputs w w rfl rfl
  refine ⟨?_, ?_, ?_, hind.1, hind.2.1, hind.2.2.1, hind.2.2.2, ?_, hses.1, hses.2⟩
  · rw [worker_eq]
    rfl
  · rw [worker_eq, worker_eq]
  · rw [worker_eq, worker_eq]
  · intro hQ
    rw [(sessionIter_status asfd w r (-1)).1, if_neg hQ]

theorem recvCount_data_ne (len : Nat) (bytes : List Nat) :
    recvCount len (RecvResult.data bytes) ≠ -1 := by
  show (((bytes.take len).length : Nat) : Int) ≠ -1
  omega

/-- C13 (what the code does). The cases `H`, `C` and `Q` choose their log line
by `nsend`: `Could not send data to client` on standard error when the `send`
returned -1, the byte count on standard output otherwise.  The `default:` case
chooses it by `nread`: after a read that delivered data, a failed `send` of the
invalid-command text is reported on standard output as `Sent %d bytes` with
the count -1 and nothing goes to standard error; after a failed read, a `send`
that succeeded with 28 bytes is reported as `Could not send data to client`. -/
theorem C13_default_branch_tests_nread (asfd : Int) (w : Worker) (bs : List Nat)
    (sres : Int) :
    (sessionIter asfd w (RecvResult.data ('H'.toNat :: bs)) (-1)).2.1 =
        [Event.recv asfd BUF_SIZE,
         recvLog (recvCount BUF_SIZE (RecvResult.data ('H'.toNat :: bs))),
         Event.send asfd (cstr helpMsg),
         Event.stderr "Could not send data to client\n" []]
    ∧ (sessionIter asfd w (RecvResult.data ('C'.toNat :: bs)) (-1)).2.1 =
        [Event.recv asfd BUF_SIZE,
         recvLog (recvCount BUF_SIZE (RecvResult.data ('C'.toNat :: bs))),
         Event.send asfd (cstr commandMsg),
         Event.stderr "Could not send data to client\n" []]
    ∧ (sessionIter asfd w (RecvResult.data ('Q'.toNat :: bs)) (-1)).2.1 =
        [Event.recv asfd BUF_SIZE,
         recvLog (recvCount BUF_SIZE (RecvResult.data ('Q'.toNat :: bs))),
         Event.send asfd (cstr goodbyeMsg),
         Event.stderr "Could not send data to client\n" [],
         Event.terminate EXIT_SUCCESS]
    ∧ (sessionIter asfd w (RecvResult.data ('X'.toNat :: bs)) (-1)).2.1 =
        [Event.recv asfd BUF_SIZE,
         Event.stdout "Received %d bytes from client\n"
           [Arg.int (recvCount BUF_SIZE (RecvResult.data ('X'.toNat :: bs)))],
         Event.send asfd (cstr invalidMsg),
         Event.stdout "Sent %d bytes to client\n" [Arg.int (-1)]]
    ∧ (sessionIter asfd w (RecvResult.data ('X'.toNat :: bs)) sres).2.1 =
        [Event.recv asfd BUF_SIZE,
         recvLog (recvCount BUF_SIZE (RecvResult.data ('X'.toNat :: bs))),
         Event.send asfd (cstr invalidMsg),
         sendLog (recvCount BUF_SIZE (RecvResult.data ('X'.toNat :: bs))) sres]
    ∧ (sessionIter asfd ⟨'X'.toNat :: bs, w.sendbuf, w.nread, w.nsend⟩ RecvResult.error 28).2.1 =
        [Event.recv asfd BUF_SIZE,
         Event.stderr "Could not read from client\n" [],
         Event.send asfd (cstr invalidMsg),
         Event.stderr "Could not send data to client\n" []] := by
  have hX : ∀ (w1 : Worker) (r : RecvResult) (s : Int),
      (recvStore w1.readbuf BUF_SIZE r).getD 0 0 = 'X'.toNat →
      (sessionIter asfd w1 r s).2.1 =
        [Event.recv asfd BUF_SIZE, recvLog (recvCount BUF_SIZE r),
         Event.send asfd (cstr invalidMsg), sendLog (recvCount BUF_SIZE r) s] := by
    intro w1 r s h
    rw [sessionIter_default asfd w1 r s (by rw [h]; decide) (by rw [h]; decide)
      (by rw [h]; decide)]
  refine ⟨?_, ?_, ?_, ?_, ?_, ?_⟩
  · rw [sessionIter_H asfd w _ (-1) (recvStore_data_cons _ _ _)]
    rfl
  · rw [sessionIter_C asfd w _ (-1) (recvStore_data_cons _ _ _)]
    rfl
  · rw [sessionIter_Q asfd w _ (-1) (recvStore_data_cons _ _ _)]
    rfl
  · rw [hX w _ (-1) (recvStore_data_cons _ _ _)]
    simp only [recvLog, sendLog, if_neg (recvCount_data_ne _ _)]
  · exact hX w _ sres (recvStore_data_cons _ _ _)
  · rw [hX ⟨'X'.toNat :: bs, w.sendbuf, w.nread, w.nsend⟩ RecvResult.error 28 rfl]
    rfl

/-! ## The accept loop of command_server_tcp.c after a failed accept -/

/-- The child of a `fork`: the `fork` event, then the worker. -/
theorem command_server_tcp_fork_child (p : CmdProc) (env : WorkerEnv) :
    (command_server_tcp_fork p 0 env).2.1 =
      Event.fork 0 :: (worker p.asfd env.peername p.w env.greetRes env.inputs).2.1
    ∧ (command_server_tcp_fork p 0 env).2.2 =
      (worker p.asfd env.peername p.w env.greetRes env.inputs).2.2
    ∧ ((command_server_tcp_fork p 0 env).2.2 = Status.running →
        (command_server_tcp_fork p 0 env).1.fds = p.fds) := by
  unfold command_server_tcp_fork
  simp only [show ¬ ((0 : Int) = -1) by decide, if_false, if_true]
  rcases worker p.asfd env.peername p.w env.greetRes env.inputs with ⟨w1, evs, st⟩
  cases st with
  | running => exact ⟨rfl, rfl, fun _ => rfl⟩
  | exited c => exact ⟨rfl, rfl, fun h => Status.noConfusion h⟩

/-- C14 (what the code does). When `accept` returns -1 the Acceptor logs
`Could not accept socket`, does not exit and, when its `fork` succeeds, goes
on to the next `accept` with its descriptors unchanged.  But the `fork` is
called all the same: the trace of the iteration is the `accept`, the log line
and a `fork`, and the child of that `fork` is a worker that reports a peer and
sends the 512-byte greeting on descriptor -1. -/
theorem C14_fork_after_failed_accept (p : CmdProc) (cpid : Int) (env : WorkerEnv)
    (rest : List (Int × Int × WorkerEnv)) (h0 : cpid ≠ 0) (h1 : cpid ≠ -1) :
    (command_server_tcp_loop p ((-1, cpid, env) :: rest)).2.1 =
        [Event.accept p.sfd (-1), Event.stderr "Could not accept socket\n" [],
         Event.fork cpid] ++
        (command_server_tcp_loop (command_server_tcp_accept p (-1)).1 rest).2.1
    ∧ (command_server_tcp_loop p ((-1, cpid, env) :: rest)).2.2 =
        (command_server_tcp_loop (command_server_tcp_accept p (-1)).1 rest).2.2
    ∧ (command_server_tcp_accept p (-1)).1.fds = p.fds
    ∧ (command_server_tcp_accept p (-1)).1.asfd = -1
    ∧ (∃ tail, (command_server_tcp_fork (command_server_tcp_accept p (-1)).1 0 env).2.1 =
        Event.fork 0 ::
        Event.stdout "Accepted a connection from %s ...\n" [Arg.str env.peername] ::
        Event.send (-1) (cstr welcomeMsg ++ List.replicate 470 0) :: tail) := by
  refine ⟨?_, ?_, rfl, rfl, ?_⟩
  · rw [command_server_tcp_loop_parent p (-1) cpid env rest h0 h1]
    rfl
  · rw [command_server_tcp_loop_parent p (-1) cpid env rest h0 h1]
  · rw [(command_server_tcp_fork_child _ env).1, worker_eq,
      take_size_strncpy _ _ _ welcomeMsg_nonzero (by decide)]
    exact ⟨_, rfl⟩

/-- C14, at a concrete run: the listener is descriptor 3, `accept` fails, the
`fork` returns 1002 in the Acceptor, and the next `accept` returns 4. -/
theorem C14_fork_after_failed_accept_witness :
    (1002 : Int) ≠ 0 ∧ (1002 : Int) ≠ -1
    ∧ (command_server_tcp_loop ⟨[3], 3, 0, ⟨[], [], 0, 0⟩⟩
        [(-1, 1002, ⟨"", 0, []⟩), (4, 1003, ⟨"", 0, []⟩)]).2.1 =
        [Event.accept 3 (-1), Event.stderr "Could not accept socket\n" [], Event.fork 1002] ++
        (command_server_tcp_loop
          (command_server_tcp_accept ⟨[3], 3, 0, ⟨[], [], 0, 0⟩⟩ (-1)).1
          [(4, 1003, ⟨"", 0, []⟩)]).2.1 :=
  ⟨by decide, by decide,
    (C14_fork_after_failed_accept ⟨[3], 3, 0, ⟨[], [], 0, 0⟩⟩ 1002 ⟨"", 0, []⟩
      [(4, 1003, ⟨"", 0, []⟩)] (by decide) (by decide)).1⟩

/-! ## The listening descriptor in the workers of the two TCP servers -/

theorem sendLog_not_close (t n : Int) : isClose (sendLog t n) = false := by
  unfold sendLog; split <;> rfl

theorem sessionIter_no_close (asfd : Int) (w : Worker) (r : RecvResult) (s : Int) :
    ∀ e ∈ (sessionIter asfd w r s).2.1, isClose e = false := by
  intro e he
  by_cases hH : (recvStore w.readbuf BUF_SIZE r).getD 0 0 = 'H'.toNat
  · rw [sessionIter_H asfd w r s hH] at he
    simp only [List.mem_cons, List.mem_singleton, List.not_mem_nil, or_false] at he
    rcases he with rfl | rfl | rfl | rfl
    · rfl
    · exact recvLog_not_close _
    · rfl
    · exact sendLog_not_close _ _
  · by_cases hC : (recvStore w.readbuf BUF_SIZE r).getD 0 0 = 'C'.toNat
    · rw [sessionIter_C asfd w r s hC] at he
      simp only [List.mem_cons, List.mem_singleton, List.not_mem_nil, or_false] at he
      rcases he with rfl | rfl | rfl | rfl
      · rfl
      · exact recvLog_not_close _
      · rfl
      · exact sendLog_not_close _ _
    · by_cases hQ : (recvStore w.readbuf BUF_SIZE r).getD 0 0 = 'Q'.toNat
      · rw [sessionIter_Q asfd w r s hQ] at he
        simp only [List.mem_cons, List.mem_singleton, List.not_mem_nil, or_false] at he
        rcases he with rfl | rfl | rfl | rfl | rfl
        · rfl
        · exact recvLog_not_close _
        · rfl
        · exact sendLog_not_close _ _
        · rfl
      · rw [sessionIter_default asfd w r s hH hC hQ] at he
        simp only [List.mem_cons, List.mem_singleton, List.not_mem_nil, or_false] at he
        rcases he with rfl | rfl | rfl | rfl
        · rfl
        · exact recvLog_not_close _
        · rfl
        · exact sendLog_not_close _ _

theorem session_no_close (asfd : Int) (inputs : List (RecvResult × Int)) (w : Worker) :
    ∀ e ∈ (session asfd w inputs).2.1, isClose e = false := by
  induction inputs generalizing w with
  | nil => intro e he; simp [session] at he
  | cons x xs ih =>
    obtain ⟨r, s⟩ := x
    intro e he
    have hst := sessionIter_status asfd w r s
    by_cases hQ : (recvStore w.readbuf BUF_SIZE r).getD 0 0 = 'Q'.toNat
    · rw [session_cons_exited asfd w r s xs EXIT_SUCCESS (by rw [hst.1, if_pos hQ])] at he
      exact sessionIter_no_close asfd w r s e he
    · rw [session_cons_running asfd w r s xs (by rw [hst.1, if_neg hQ])] at he
      simp only [List.mem_append] at he
      rcases he with he | he
      · exact sessionIter_no_close asfd w r s e he
      · exact ih _ e he

theorem worker_no_close (asfd : Int) (peername : String) (w : Worker) (greetRes : Int)
    (inputs : List (RecvResult × Int)) :
    ∀ e ∈ (worker asfd peername w greetRes inputs).2.1, isClose e = false := by
  intro e he
  rw [worker_eq] at he
  simp only [List.mem_append, List.mem_cons, List.mem_singleton, List.not_mem_nil,
    or_false] at he
  rcases he with ((rfl | rfl) | he) | he
  · rfl
  · rfl
  · split at he
    · simp only [List.mem_singleton] at he
      subst he; rfl
    · simp at he
  · exact session_no_close _ _ _ e he

/-- C15. Of the two forking TCP servers exactly one leaves the listening
descriptor open in its worker.  The worker of command_server_tcp calls no
`close` at all, and while it is in its command loop its descriptor table is
the one it inherited, the listening descriptor included.  The worker of
simple_server_tcp calls `close(sfd)` as the first thing after the `fork`,
before its `send` (no `send` or `recv` precedes it), and the listening
descriptor is then no longer in its table. -/
theorem C15_listener_in_worker (p : CmdProc) (env : WorkerEnv) (q : EchoProc)
    (peername : String) (sendRet : Int) :
    (∀ e ∈ (command_server_tcp_fork p 0 env).2.1, isClose e = false)
    ∧ ((command_server_tcp_fork p 0 env).2.2 = Status.running →
        (command_server_tcp_fork p 0 env).1.fds = p.fds
        ∧ (p.sfd ∈ p.fds → p.sfd ∈ (command_server_tcp_fork p 0 env).1.fds))
    ∧ (∃ tail, (simple_server_tcp_fork q 0 peername sendRet).2 =
        Event.fork 0 :: Event.close q.sfd ::
        Event.send q.asfd (q.buf.take BUF_SIZE) :: tail)
    ∧ connOps [Event.fork 0, Event.close q.sfd] = []
    ∧ q.sfd ∉ (simple_server_tcp_fork q 0 peername sendRet).1.fds := by
  have hchild := command_server_tcp_fork_child p env
  refine ⟨?_, ?_, ?_, rfl, ?_⟩
  · intro e he
    rw [hchild.1] at he
    simp only [List.mem_cons] at he
    rcases he with rfl | he
    · rfl
    · exact worker_no_close _ _ _ _ _ e he
  · intro hrun
    have hf := hchild.2.2 hrun
    exact ⟨hf, fun h => hf ▸ h⟩
  · unfold simple_server_tcp_fork
    simp only [if_true]
    exact ⟨_, rfl⟩
  · unfold simple_server_tcp_fork
    simp [closeFd]

/-! ## The port of the bind address -/

theorem portOf_add (port : Int) : portOf (port + 65536) = portOf port := by
  unfold portOf
  omega

theorem portOf_mod (port : Int) : portOf (port % 65536) = portOf port := by
  unfold portOf
  omega

/-- The start-up of the three programs uses `port` through `portOf` only. -/
theorem startup_port_congr (argv : List String) (env : StartEnv) (port1 : Int)
    (h : portOf port1 = portOf env.port) :
    command_server_tcp_startup argv { env with port := port1 }
        = command_server_tcp_startup argv env
    ∧ simple_server_tcp_startup argv { env with port := port1 }
        = simple_server_tcp_startup argv env
    ∧ simpler_server_startup argv { env with port := port1 }
        = simpler_server_startup argv env := by
  unfold command_server_tcp_startup simple_server_tcp_startup simpler_server_startup
  simp only [h]
  exact ⟨trivial, trivial, trivial⟩

/-- Once the socket exists, the start-up calls `bind` with `portOf port`. -/
theorem startup_binds (argv : List String) (env : StartEnv) (hargc : argv.length = 2)
    (hsock : env.socketRet ≠ -1) :
    Event.bind env.socketRet (portOf env.port) env.bindRet
        ∈ (command_server_tcp_startup argv env).1
    ∧ Event.bind env.socketRet (portOf env.port) env.bindRet
        ∈ (simple_server_tcp_startup argv env).1
    ∧ Event.bind env.socketRet (portOf env.port) env.bindRet
        ∈ (simpler_server_startup argv env).1 := by
  unfold command_server_tcp_startup simple_server_tcp_startup simpler_server_startup
  simp only [hargc, ne_eq, not_true_eq_false, if_false, hsock]
  refine ⟨?_, ?_, ?_⟩
  · repeat' split
    all_goals simp
  · repeat' split
    all_goals simp
  · repeat' split
    all_goals simp

/-- C16. In command_server_tcp, simple_server_tcp and simpler_server, started
with one argument and once `socket` has succeeded, the port in the address
handed to `bind` is the value `p` that `sscanf` stored in `port`, modulo
65536, a number from 0 to 65535.  No value of `p` changes the course of the
start-up otherwise: the whole trace for `p` is the trace for `p mod 65536`
and the trace for `p + 65536`; with `p = 65536` the port bound is 0. -/
theorem C16_port_mod_65536 (argv : List String) (env : StartEnv)
    (hargc : argv.length = 2) (hsock : env.socketRet ≠ -1) :
    Event.bind env.socketRet (env.port % 65536) env.bindRet
        ∈ (command_server_tcp_startup argv env).1
    ∧ Event.bind env.socketRet (env.port % 65536) env.bindRet
        ∈ (simple_server_tcp_startup argv env).1
    ∧ Event.bind env.socketRet (env.port % 65536) env.bindRet
        ∈ (simpler_server_startup argv env).1
    ∧ 0 ≤ env.port % 65536 ∧ env.port % 65536 < 65536
    ∧ command_server_tcp_startup argv { env with port := env.port + 65536 }
        = command_server_tcp_startup argv env
    ∧ simple_server_tcp_startup argv { env with port := env.port + 65536 }
        = simple_server_tcp_startup argv env
    ∧ simpler_server_startup argv { env with port := env.port + 65536 }
        = simpler_server_startup argv env
    ∧ command_server_tcp_startup argv { env with port := env.port % 65536 }
        = command_server_tcp_startup argv env
    ∧ simple_server_tcp_startup argv { env with port := env.port % 65536 }
        = simple_server_tcp_startup argv env
    ∧ simpler_server_startup argv { env with port := env.port % 65536 }
        = simpler_server_startup argv env
    ∧ Event.bind env.socketRet 0 env.bindRet
        ∈ (command_server_tcp_startup argv { env with port := 65536 }).1
    ∧ Event.bind env.socketRet 0 env.bindRet
        ∈ (simple_server_tcp_startup argv { env with port := 65536 }).1
    ∧ Event.bind env.socketRet 0 env.bindRet
        ∈ (simpler_server_startup argv { env with port := 65536 }).1 := by
  have hb := startup_binds argv env hargc hsock
  have hadd := startup_port_congr argv env (env.port + 65536) (portOf_add _)
  have hmod := startup_port_congr argv env (env.port % 65536) (portOf_mod _)
  have hz := startup_binds argv { env with port := 65536 } hargc hsock
  refine ⟨hb.1, hb.2.1, hb.2.2, by omega, by omega, hadd.1, hadd.2.1, hadd.2.2,
    hmod.1, hmod.2.1, hmod.2.2, hz.1, hz.2.1, hz.2.2⟩

/-- C16, at concrete command lines: the values 8080, 8080 + 65536 and 65536
in `port`. -/
theorem C16_port_mod_65536_witness :
    ["command_server_tcp", "73616"].length = 2 ∧ (3 : Int) ≠ -1
    ∧ Event.bind 3 8080 0 ∈ (command_server_tcp_startup ["command_server_tcp", "73616"]
        ⟨73616, 3, 0, 0, 0⟩).1
    ∧ (command_server_tcp_startup ["command_server_tcp", "65536"] ⟨65536, 3, 0, 0, 0⟩).1 =
        [Event.socket 3, Event.bind 3 0 0, Event.listen 3 16 0, Event.sigaction 0,
         Event.stdout "Waiting to accept connections ...\n" []] :=
  ⟨by decide, by decide,
    (C16_port_mod_65536 ["command_server_tcp", "73616"] ⟨73616, 3, 0, 0, 0⟩
      (by decide) (by decide)).1,
    by decide⟩

/-! ## simple_server_tcp.c: every process forks in every iteration -/

theorem forkCalls_append (xs ys : List Event) :
    forkCalls (xs ++ ys) = forkCalls xs + forkCalls ys := by
  simp [forkCalls, List.filter_append]

theorem simple_server_tcp_fork_facts (p : EchoProc) (forkRet : Int) (peername : String)
    (sendRet : Int) :
    forkCalls (simple_server_tcp_fork p forkRet peername sendRet).2 = 1
    ∧ (simple_server_tcp_fork p forkRet peername sendRet).1.sfd = p.sfd
    ∧ (∀ e ∈ (simple_server_tcp_fork p forkRet peername sendRet).2, isTerminate e = false) := by
  unfold simple_server_tcp_fork
  split
  · split
    · refine ⟨rfl, rfl, ?_⟩
      intro e he
      simp only [List.mem_cons, List.mem_append, List.mem_singleton, List.not_mem_nil,
        or_false] at he
      rcases he with (rfl | rfl | rfl) | rfl <;> rfl
    · refine ⟨rfl, rfl, ?_⟩
      intro e he
      simp only [List.mem_cons, List.mem_append, List.mem_singleton, List.not_mem_nil,
        or_false] at he
      rcases he with rfl | rfl | rfl <;> rfl
  · refine ⟨rfl, rfl, ?_⟩
    intro e he
    simp only [List.mem_singleton] at he
    subst he; rfl

theorem simple_server_tcp_iter_facts (p : EchoProc) (env : EchoEnv) (hsfd : p.sfd ≠ -1) :
    forkCalls (simple_server_tcp_iter p env).2 = 1
    ∧ (simple_server_tcp_iter p env).1.sfd = p.sfd
    ∧ (∀ e ∈ (simple_server_tcp_iter p env).2, isTerminate e = false) := by
  have hf := simple_server_tcp_fork_facts
    { p with asfd := env.acceptRet, fds := openFd p.fds env.acceptRet }
    env.forkRet env.peername env.sendRet
  unfold simple_server_tcp_iter simple_server_tcp_accept
  simp only [hsfd, if_false]
  refine ⟨?_, hf.2.1, ?_⟩
  · rw [forkCalls_append, hf.1]
    rfl
  · intro e he
    simp only [List.mem_append, List.mem_cons, List.mem_singleton, List.not_mem_nil,
      or_false] at he
    rcases he with (rfl | rfl) | he
    · rfl
    · rfl
    · exact hf.2.2 e he

theorem simple_server_tcp_loop_facts (envs : List EchoEnv) (p : EchoProc)
    (hsfd : p.sfd ≠ -1) :
    forkCalls (simple_server_tcp_loop p envs).2 = envs.length
    ∧ (∀ e ∈ (simple_server_tcp_loop p envs).2, isTerminate e = false) := by
  induction envs generalizing p with
  | nil =>
    refine ⟨rfl, ?_⟩
    intro e he
    simp [simple_server_tcp_loop] at he
  | cons env rest ih =>
    have hi := simple_server_tcp_iter_facts p env hsfd
    have ih1 := ih (simple_server_tcp_iter p env).1 (by rw [hi.2.1]; exact hsfd)
    simp only [simple_server_tcp_loop, List.length_cons]
    refine ⟨?_, ?_⟩
    · rw [forkCalls_append, hi.1, ih1.1]
      omega
    · intro e he
      simp only [List.mem_append] at he
      rcases he with he | he
      · exact hi.2.2 e he
      · exact ih1.2 e he

/-- The start-up of simple_server_tcp reaches the accept loop only with a
listening descriptor other than -1. -/
theorem simple_server_tcp_startup_sfd (argv : List String) (env : StartEnv) (sfd : Int)
    (h : (simple_server_tcp_startup argv env).2 = some sfd) : sfd ≠ -1 := by
  unfold simple_server_tcp_startup at h
  dsimp only at h
  by_cases h1 : argv.length ≠ 2
  · rw [if_pos h1] at h
    exact Option.noConfusion h
  · rw [if_neg h1] at h
    by_cases h2 : env.socketRet = -1
    · rw [if_pos h2] at h
      exact Option.noConfusion h
    · rw [if_neg h2] at h
      by_cases h3 : env.bindRet ≠ 0
      · rw [if_pos h3] at h
        exact Option.noConfusion h
      · rw [if_neg h3] at h
        by_cases h4 : env.listenRet ≠ 0
        · rw [if_pos h4] at h
          exact Option.noConfusion h
        · rw [if_neg h4] at h
          by_cases h5 : env.sigactionRet = -1
          · rw [if_pos h5] at h
            exact Option.noConfusion h
          · rw [if_neg h5] at h
            have hs : env.socketRet = sfd := Option.some.inj h
            rw [← hs]
            exact h2

/-- C17. In simple_server_tcp, entered with `sfd` other than -1 as the
start-up leaves it: the worker (the process in which `fork` returned 0) does
not end after its `send`: its trace holds no `exit`, the listening descriptor
is out of its table, and the variable `sfd` still holds the old number.  In
its next iteration the test `sfd == -1` is false whatever `accept` returned,
-1 included, so the iteration goes on to `fork`: it makes exactly one `fork`
call.  The same holds for every process and every iteration: over any
sequence of answers the loop makes as many `fork` calls as iterations and
never exits. -/
theorem C17_worker_forks_again (p : EchoProc) (peername : String) (sendRet : Int)
    (env : EchoEnv) (envs : List EchoEnv) (hsfd : p.sfd ≠ -1) :
    (∀ e ∈ (simple_server_tcp_fork p 0 peername sendRet).2, isTerminate e = false)
    ∧ p.sfd ∉ (simple_server_tcp_fork p 0 peername sendRet).1.fds
    ∧ (simple_server_tcp_fork p 0 peername sendRet).1.sfd = p.sfd
    ∧ (simple_server_tcp_accept (simple_server_tcp_fork p 0 peername sendRet).1 (-1)
        env.peername).2.2 = true
    ∧ (simple_server_tcp_accept (simple_server_tcp_fork p 0 peername sendRet).1
        env.acceptRet env.peername).2.2 = true
    ∧ forkCalls (simple_server_tcp_iter (simple_server_tcp_fork p 0 peername sendRet).1
        env).2 = 1
    ∧ forkCalls (simple_server_tcp_loop (simple_server_tcp_fork p 0 peername sendRet).1
        envs).2 = envs.length
    ∧ (∀ e ∈ (simple_server_tcp_loop (simple_server_tcp_fork p 0 peername sendRet).1
        envs).2, isTerminate e = false)
    ∧ forkCalls (simple_server_tcp_iter p env).2 = 1
    ∧ forkCalls (simple_server_tcp_loop p envs).2 = envs.length
    ∧ (∀ e ∈ (simple_server_tcp_loop p envs).2, isTerminate e = false) := by
  have hf := simple_server_tcp_fork_facts p 0 peername sendRet
  have hsfd1 : (simple_server_tcp_fork p 0 peername sendRet).1.sfd ≠ -1 := by
    rw [hf.2.1]; exact hsfd
  have hacc : ∀ (a : Int), (simple_server_tcp_accept
      (simple_server_tcp_fork p 0 peername sendRet).1 a env.peername).2.2 = true := by
    intro a
    unfold simple_server_tcp_accept
    simp only [hsfd1, if_false]
  have hw := simple_server_tcp_loop_facts envs _ hsfd1
  have hp := simple_server_tcp_loop_facts envs p hsfd
  refine ⟨hf.2.2, ?_, hf.2.1, hacc (-1), hacc env.acceptRet,
    (simple_server_tcp_iter_facts _ env hsfd1).1, hw.1, hw.2,
    (simple_server_tcp_iter_facts p env hsfd).1, hp.1, hp.2⟩
  unfold simple_server_tcp_fork
  simp [closeFd]

/-- C17, at a concrete run: the worker of the connection on descriptor 4
sends, goes back to `accept` on the closed descriptor 3, which fails, reports
an accepted connection and forks. -/
theorem C17_worker_forks_again_witness :
    (3 : Int) ≠ -1
    ∧ (simple_server_tcp_loop ⟨[3], 3, 0, [1, 2, 3]⟩
        [⟨4, "127.0.0.1", 0, 512⟩, ⟨-1, "127.0.0.1", 1005, 0⟩]).2 =
        [Event.accept 3 4,
         Event.stdout "Accepted a connection from %s ...\n" [Arg.str "127.0.0.1"],
         Event.fork 0, Event.close 3, Event.send 4 [1, 2, 3],
         Event.stderr "Could not send to peer %s ...\n" [Arg.str "127.0.0.1"],
         Event.accept 3 (-1),
         Event.stdout "Accepted a connection from %s ...\n" [Arg.str "127.0.0.1"],
         Event.fork 1005]
    ∧ forkCalls (simple_server_tcp_loop ⟨[3], 3, 0, [1, 2, 3]⟩
        [⟨4, "127.0.0.1", 0, 512⟩, ⟨-1, "127.0.0.1", 1005, 0⟩]).2 = 2 :=
  ⟨by decide, by decide,
    (C17_worker_forks_again ⟨[3], 3, 0, [1, 2, 3]⟩ "127.0.0.1" 512
      ⟨4, "127.0.0.1", 0, 512⟩ [⟨4, "127.0.0.1", 0, 512⟩, ⟨-1, "127.0.0.1", 1005, 0⟩]
      (by decide)).2.2.2.2.2.2.2.2.2.1⟩

end SimpleServer
